import Mathlib

/-!
Shallow embedding of the EcoChain oracle subsystem
(`ecochain/oracles/oracle_network.py` and `ecochain/oracles/reputation_system.py`)
and proofs about its aggregation, request-lifecycle and reputation behaviour.

Modelling conventions:
* Python floats are modelled as rationals (`ℚ`); all arithmetic in the
  modelled code paths is exact except the two real-valued library calls
  `time_decay_factor ** days` and `statistics.stdev`, which are passed in
  as an explicit oracle (`RealOps`).  Every theorem below either holds for
  all oracles or instantiates a trace in which the oracle is never applied
  (all events share one timestamp, so `days_since_update = 0`).
* `time.time()` is modelled by an explicit `now : ℚ` argument.
* Python dictionaries are modelled as association lists in insertion
  order (`List (String × _)`); assignment replaces in place or appends.
* `uuid.uuid4()` request ids are modelled as caller-supplied ids; the
  freshness the library guarantees appears as a hypothesis where needed.
* Logging, `_save_data`/`_load_data` (inactive: the network builds its
  `ReputationSystem` with no `data_file`), `_distribute_rewards` (log-only
  stub) and `_notify_providers` (writes only into each provider's own
  `pending_requests`, never into the coordinator) have no effect on the
  modelled state and are omitted.
-/

/-- Scalar value inside a mapping-valued response payload. -/
inductive OVal where
  | num (x : ℚ)
  | str (s : String)
deriving DecidableEq, Repr

/-- A response payload: scalar numeric, flat mapping, or anything else
(the `raw` constructor stands for payload shapes the engine rejects). -/
inductive OData where
  | num (x : ℚ)
  | dict (m : List (String × OVal))
  | raw (s : String)
deriving DecidableEq, Repr

/-- `d[k] = v` on a Python dict modelled as an association list (keys are
unique, as in a dict): replace the existing entry in place, else append. -/
def updateAssoc {α : Type} : List (String × α) → String → α → List (String × α)
  | [], k, v => [(k, v)]
  | p :: t, k, v => if p.1 == k then (k, v) :: t else p :: updateAssoc t k v

/-- One entry of `EntityRecord.history` (the `details` dict, which no
modelled code path ever reads back, is omitted). -/
structure HistoryEntry where
  timestamp : ℚ
  old_score : ℚ
  delta : ℚ
  new_score : ℚ
  reason : Option String
deriving DecidableEq, Repr

/-- `EntityRecord` from `reputation_system.py`. -/
structure EntityRecord where
  entity_id : String
  score : ℚ
  history : List HistoryEntry
  accuracy_history : List ℚ
  last_updated : ℚ
  creation_time : ℚ
deriving DecidableEq, Repr

/-- The configuration parameters `ReputationSystem.__init__` reads, with
the source's defaults. -/
structure RepConfig where
  min_score : ℚ := 0
  max_score : ℚ := 100
  default_score : ℚ := 50
  accuracy_weight : ℚ := 2
  consistency_weight : ℚ := 1
  time_decay_factor : ℚ := 995 / 1000
  max_history_size : Nat := 100
  max_accuracy_history : Nat := 100
deriving DecidableEq, Repr

/-- The mutable state of a `ReputationSystem`. -/
structure ReputationSystem where
  config : RepConfig := {}
  entities : List (String × EntityRecord) := []
deriving DecidableEq, Repr

/-- Oracle for the two real-valued library operations that have no exact
rational counterpart: `decayPow f d` models the Python expression
`f ** d` (time decay over `d` days) and `stdev l` models
`statistics.stdev(l)`.  Theorems quantify over this structure or use
traces in which it is never applied. -/
structure RealOps where
  decayPow : ℚ → ℚ → ℚ
  stdev : List ℚ → ℚ

/-- `max(self.min_score, min(self.max_score, score))`. -/
def RepConfig.clamp (cfg : RepConfig) (x : ℚ) : ℚ :=
  max cfg.min_score (min cfg.max_score x)

/-- `ReputationSystem.has_entity`. -/
def ReputationSystem.has_entity (s : ReputationSystem) (entity_id : String) : Bool :=
  (s.entities.lookup entity_id).isSome

/-- `ReputationSystem.add_entity`. -/
def ReputationSystem.add_entity (s : ReputationSystem) (now : ℚ)
    (entity_id : String) (initial_score : Option ℚ) : Bool × ReputationSystem :=
  if (s.entities.lookup entity_id).isSome then
    (false, s)
  else
    let score := s.config.clamp (initial_score.getD s.config.default_score)
    let record : EntityRecord :=
      { entity_id := entity_id, score := score, history := [],
        accuracy_history := [], last_updated := now, creation_time := now }
    (true, { s with entities := s.entities ++ [(entity_id, record)] })

/-- `ReputationSystem.get_score`: the default score for unknown ids. -/
def ReputationSystem.get_score (s : ReputationSystem) (entity_id : String) : ℚ :=
  match s.entities.lookup entity_id with
  | none => s.config.default_score
  | some record => record.score

/-- `ReputationSystem.update_score`: auto-create unknown ids, apply time
decay when days-since-update is positive, add the delta, clamp, stamp,
append a history entry and evict past `max_history_size`. -/
def ReputationSystem.update_score (ops : RealOps) (now : ℚ)
    (s : ReputationSystem) (entity_id : String) (delta : ℚ)
    (reason : Option String) : ℚ × ReputationSystem :=
  let s1 := if (s.entities.lookup entity_id).isSome then s
            else (s.add_entity now entity_id none).2
  match s1.entities.lookup entity_id with
  | none => (0, s1)
  | some record =>
    let days_since_update := (now - record.last_updated) / (24 * 3600)
    let decayed :=
      if 0 < days_since_update then
        record.score * ops.decayPow s.config.time_decay_factor days_since_update
      else record.score
    let new_score := s.config.clamp (decayed + delta)
    let entry : HistoryEntry :=
      { timestamp := now, old_score := record.score, delta := delta,
        new_score := new_score, reason := reason }
    let hist := record.history ++ [entry]
    let hist2 := if s.config.max_history_size < hist.length then
                   hist.drop (hist.length - s.config.max_history_size)
                 else hist
    let record2 := { record with score := new_score, last_updated := now,
                                 history := hist2 }
    (new_score, { s1 with entities := updateAssoc s1.entities entity_id record2 })

/-- `ReputationSystem.record_accuracy`: append to the accuracy history
(capped), derive a delta from the accuracy (plus a consistency term from
the stdev of the last five samples when available) and delegate to
`update_score`. -/
def ReputationSystem.record_accuracy (ops : RealOps) (now : ℚ)
    (s : ReputationSystem) (entity_id : String) (accuracy weight : ℚ) :
    ℚ × ReputationSystem :=
  let s1 := if (s.entities.lookup entity_id).isSome then s
            else (s.add_entity now entity_id none).2
  match s1.entities.lookup entity_id with
  | none => (0, s1)
  | some record =>
    let ah := record.accuracy_history ++ [accuracy]
    let ah2 := if s.config.max_accuracy_history < ah.length then
                 ah.drop (ah.length - s.config.max_accuracy_history)
               else ah
    let accuracy_factor := (accuracy - 1/2) * 2
    let delta0 := accuracy_factor * s.config.accuracy_weight * weight
    let delta :=
      if 5 ≤ ah2.length then
        let recent := ah2.drop (ah2.length - 5)
        let consistency := 1 - ops.stdev recent * 2
        let consistency_factor := (consistency - 1/2) * 2
        delta0 + consistency_factor * s.config.consistency_weight * weight
      else delta0
    let s2 := { s1 with
                entities := updateAssoc s1.entities entity_id
                              { record with accuracy_history := ah2 } }
    ReputationSystem.update_score ops now s2 entity_id delta (some "accuracy")

/-- `ReputationSystem.decay_scores`: batch decay over every entity whose
days-since-update is positive, clamping afterwards. -/
def ReputationSystem.decay_scores (ops : RealOps) (now : ℚ)
    (s : ReputationSystem) : ReputationSystem :=
  { s with entities := s.entities.map (fun p =>
      let record := p.2
      let days_since_update := (now - record.last_updated) / (24 * 3600)
      if 0 < days_since_update then
        (p.1, { record with
                score := s.config.clamp
                  (record.score * ops.decayPow s.config.time_decay_factor days_since_update),
                last_updated := now })
      else p) }

/-- The score-changing operations of the reputation store, for stating
store-wide invariants. -/
inductive RepOp where
  | addEntity (now : ℚ) (entity_id : String) (initial_score : Option ℚ)
  | updateScore (now : ℚ) (entity_id : String) (delta : ℚ) (reason : Option String)
  | recordAccuracy (now : ℚ) (entity_id : String) (accuracy weight : ℚ)
  | decayScores (now : ℚ)

/-- Apply one reputation-store operation. -/
def RepOp.apply (ops : RealOps) (op : RepOp) (s : ReputationSystem) :
    ReputationSystem :=
  match op with
  | .addEntity now id init => (s.add_entity now id init).2
  | .updateScore now id delta reason => (s.update_score ops now id delta reason).2
  | .recordAccuracy now id acc w => (s.record_accuracy ops now id acc w).2
  | .decayScores now => s.decay_scores ops now

/-- The bounded-score invariant of the reputation store. -/
def RepInv (s : ReputationSystem) : Prop :=
  ∀ p ∈ s.entities, s.config.min_score ≤ p.2.score ∧ p.2.score ≤ s.config.max_score

/-- `DataRequest` from `oracle_network.py` (statuses are the source's
plain strings: "PENDING" | "EXPIRED" | "FINALIZED"). -/
structure DataRequest where
  request_id : String
  data_type : String
  parameters : List (String × String)
  requester : String
  timestamp : ℚ
  deadline : Option ℚ
  min_providers : Nat := 3
  min_reputation : ℚ := 50
  status : String := "PENDING"
  result : Option OData := none
deriving DecidableEq, Repr

/-- `DataResponse` from `oracle_network.py`. -/
structure DataResponse where
  request_id : String
  provider_id : String
  data : OData
  timestamp : ℚ
  signature : Option String := none
  status : String := "SUBMITTED"
  verification_result : Option Bool := none
deriving DecidableEq, Repr

/-- The fields of a registered `DataProvider` that the coordinator reads
or writes (`fetch`/signing live outside the coordinator). -/
structure ProviderRec where
  provider_id : String
  name : String
  supported_data_types : List String
  response_count : Nat := 0
  last_updated : ℚ := 0
deriving DecidableEq, Repr

/-- The configuration keys `OracleNetwork.__init__` reads, with the
source's defaults.  `aggregation_method` models the optional
`config['aggregation_method']` override consulted at finalize time. -/
structure NetConfig where
  default_aggregation : String := "weighted_mean"
  aggregation_method : Option String := none
  auto_finalize : Bool := true
  base_reward : ℚ := 1
  accuracy_bonus : ℚ := 1/2
deriving DecidableEq, Repr

/-- The mutable state of an `OracleNetwork` (chain adapters and on-chain
contracts never influence the modelled operations and are omitted). -/
structure OracleNetwork where
  config : NetConfig := {}
  data_providers : List (String × ProviderRec) := []
  reputation_system : ReputationSystem := {}
  requests : List (String × DataRequest) := []
  responses : List (String × List DataResponse) := []
deriving DecidableEq, Repr

/-- `statistics.mean` (callers guarantee a non-empty list; Python raises
on `[]`, which the engine surfaces as a failed finalize). -/
def list_mean (l : List ℚ) : ℚ := l.sum / l.length

/-- Stable insertion into a sorted list, for `sorted(values)`. -/
def insertSorted (x : ℚ) : List ℚ → List ℚ
  | [] => [x]
  | y :: ys => if x < y then x :: y :: ys else y :: insertSorted x ys

/-- `sorted(values)`. -/
def sortQ (l : List ℚ) : List ℚ := l.foldr insertSorted []

/-- `statistics.median`: middle element of the sorted list, or the mean
of the two middle elements for even length. -/
def list_median (l : List ℚ) : ℚ :=
  let s := sortQ l
  let n := s.length
  if n % 2 = 1 then s.getD (n / 2) 0
  else (s.getD (n / 2 - 1) 0 + s.getD (n / 2) 0) / 2

/-- First value of maximal multiplicity (`statistics.mode`; for the dict
path Python's `max(set(values), key=values.count)` leaves ties to set
iteration order — no theorem below depends on a tie). -/
def most_common {α : Type} [DecidableEq α] (l : List α) : Option α :=
  l.foldl (fun best x =>
    match best with
    | none => some x
    | some b => if l.count b < l.count x then some x else best) none

/-- `statistics.mode` over rationals. -/
def list_mode (l : List ℚ) : ℚ := (most_common l).getD 0

/-- The `trimmed_mean` lambda: drop the single lowest and highest value
when more than 3 values exist, then take the mean. -/
def trimmed_mean (l : List ℚ) : ℚ :=
  if 3 < l.length then list_mean ((sortQ l).drop 1).dropLast else list_mean l

/-- `OracleNetwork._weighted_mean` (an empty weights list models the
`not weights` falsiness check covering both `None` and `[]`). -/
def weighted_mean (values weights : List ℚ) : ℚ :=
  if values = [] then 0
  else if weights = [] ∨ weights.length ≠ values.length then list_mean values
  else
    let total_weight := weights.sum
    if total_weight = 0 then list_mean values
    else (List.zipWith (· * ·) values weights).sum / total_weight

/-- The keys of `self.aggregation_methods`. -/
def agg_names : List String :=
  ["mean", "median", "mode", "weighted_mean", "trimmed_mean"]

/-- The aggregation dispatch inside `finalize_request`: resolve
`config.get('aggregation_method', default_aggregation)`, fall back to
the default when unknown, then apply it (`weighted_mean` is the only
method handed the weights).  `none` models the `KeyError` raised — and
caught as a failed finalize — when the default itself is unknown. -/
def aggregateValues (cfg : NetConfig) (values weights : List ℚ) : Option ℚ :=
  let m1 := cfg.aggregation_method.getD cfg.default_aggregation
  let m2 := if agg_names.contains m1 then m1 else cfg.default_aggregation
  if agg_names.contains m2 then
    some (if m2 = "weighted_mean" then weighted_mean values weights
          else if m2 = "mean" then list_mean values
          else if m2 = "median" then list_median values
          else if m2 = "mode" then list_mode values
          else trimmed_mean values)
  else none

/-- `1.0 - min(1.0, abs(data - result) / abs(result))`. -/
def accuracy_of (data result : ℚ) : ℚ := 1 - min 1 (|data - result| / |result|)

/-- The loop body of `OracleNetwork._update_reputations`: a threshold-based
score delta for one numeric response (the final `accuracy < 0.4` arm is
kept as in the source even though the preceding `accuracy < 0.6` arm
shadows it). -/
def update_rep_one (ops : RealOps) (now : ℚ) (rs : ReputationSystem)
    (r : DataResponse) (result : ℚ) : ReputationSystem :=
  match r.data with
  | OData.num d =>
    if result ≠ 0 then
      let accuracy := accuracy_of d result
      if 95/100 < accuracy then
        (rs.update_score ops now r.provider_id 2 none).2
      else if 9/10 < accuracy then
        (rs.update_score ops now r.provider_id 1 none).2
      else if 8/10 < accuracy then
        (rs.update_score ops now r.provider_id (1/2) none).2
      else if accuracy < 6/10 then
        (rs.update_score ops now r.provider_id (-1) none).2
      else if accuracy < 4/10 then
        (rs.update_score ops now r.provider_id (-2) none).2
      else rs
    else rs
  | _ => rs

/-- `OracleNetwork._update_reputations`. -/
def update_reputations (ops : RealOps) (now : ℚ) (rs : ReputationSystem)
    (responses : List DataResponse) (result : ℚ) : ReputationSystem :=
  responses.foldl (fun rs r => update_rep_one ops now rs r result) rs

/-- Extract the scalar payloads of `[r.data for r in valid_responses]`;
`none` models the exception a non-scalar payload raises inside the
arithmetic aggregators (caught as a failed finalize). -/
def extract_nums : List OData → Option (List ℚ)
  | [] => some []
  | OData.num x :: rest => (extract_nums rest).map (x :: ·)
  | _ => none

/-- Extract the mapping payloads; `none` models the exception raised by
`key in r.data` / `r.data.get(key)` on a non-mapping payload. -/
def extract_dicts : List OData → Option (List (List (String × OVal)))
  | [] => some []
  | OData.dict m :: rest => (extract_dicts rest).map (m :: ·)
  | _ => none

/-- The per-key merge of the dict branch of `finalize_request`: iterate
the FIRST valid response's keys; average the values of responses that
carry the key when all are numeric, else take the most frequent value. -/
def merge_dicts (ds : List (List (String × OVal))) : List (String × OVal) :=
  match ds with
  | [] => []
  | first :: _ =>
    (first.map Prod.fst).filterMap (fun key =>
      let values := ds.filterMap (fun m => m.lookup key)
      if values = [] then none
      else if values.all (fun v => match v with | .num _ => true | .str _ => false) then
        some (key, OVal.num (list_mean (values.filterMap
          (fun v => match v with | .num x => some x | .str _ => none))))
      else
        some (key, (most_common values).getD (OVal.num 0)))

/-- The dictionary returned by `finalize_request`. -/
structure FinalizeOut where
  success : Bool
  error : Option String := none
  result : Option OData := none
  providers : Option Nat := none
deriving DecidableEq, Repr

/-- `OracleNetwork.register_provider`: reject duplicates, store the
provider, lazily create its reputation entity. -/
def OracleNetwork.register_provider (s : OracleNetwork) (now : ℚ)
    (provider : ProviderRec) : Bool × OracleNetwork :=
  if (s.data_providers.lookup provider.provider_id).isSome then (false, s)
  else
    let s1 := { s with data_providers :=
                  s.data_providers ++ [(provider.provider_id, provider)] }
    if s1.reputation_system.has_entity provider.provider_id then (true, s1)
    else
      (true, { s1 with reputation_system :=
                 (s1.reputation_system.add_entity now provider.provider_id none).2 })

/-- `OracleNetwork.remove_provider`. -/
def OracleNetwork.remove_provider (s : OracleNetwork) (provider_id : String) :
    Bool × OracleNetwork :=
  if (s.data_providers.lookup provider_id).isSome then
    (true, { s with data_providers :=
               s.data_providers.filter (fun p => p.1 ≠ provider_id) })
  else (false, s)

/-- `OracleNetwork.submit_request`: always succeeds; records a PENDING
request and an empty response list under the (uuid4-fresh) id.
Provider notification touches only provider-local state. -/
def OracleNetwork.submit_request (s : OracleNetwork) (now : ℚ)
    (request_id data_type : String) (parameters : List (String × String))
    (requester : String) (deadline : Option ℚ)
    (min_providers : Nat := 3) (min_reputation : ℚ := 50) : OracleNetwork :=
  let request : DataRequest :=
    { request_id := request_id, data_type := data_type,
      parameters := parameters, requester := requester, timestamp := now,
      deadline := deadline, min_providers := min_providers,
      min_reputation := min_reputation }
  { s with requests := updateAssoc s.requests request_id request,
           responses := updateAssoc s.responses request_id [] }

/-- `OracleNetwork._verify_response`: the pass-through verification hook
marks the stored response VERIFIED with a positive result. -/
def verify_response (r : DataResponse) : DataResponse :=
  { r with status := "VERIFIED", verification_result := some true }

/-- `r.status == "VERIFIED" and r.verification_result` (an `Optional[bool]`
is truthy exactly when it is `True`). -/
def is_valid_response (r : DataResponse) : Bool :=
  r.status == "VERIFIED" && r.verification_result == some true

/-- `OracleNetwork.finalize_request`.  Failure paths return the state
unchanged; the numeric path aggregates, stamps the request FINALIZED and
updates reputations; the dict path merges per key without touching
reputations.  There is no check of the request's current status. -/
def OracleNetwork.finalize_request (ops : RealOps) (now : ℚ)
    (s : OracleNetwork) (request_id : String) : FinalizeOut × OracleNetwork :=
  match s.requests.lookup request_id with
  | none => ({ success := false, error := some "Request not found" }, s)
  | some request =>
    let responses := (s.responses.lookup request_id).getD []
    if responses.length < request.min_providers then
      ({ success := false, error := some "Not enough responses" }, s)
    else
      let valid_responses := responses.filter is_valid_response
      if valid_responses.length < request.min_providers then
        ({ success := false, error := some "Not enough valid responses" }, s)
      else
        match valid_responses with
        | [] =>
          -- `valid_responses[0]` raises IndexError (only reachable with
          -- `min_providers = 0`); the surrounding `except` reports failure.
          ({ success := false, error := some "list index out of range" }, s)
        | r0 :: _ =>
          match r0.data with
          | OData.num _ =>
            match extract_nums (valid_responses.map (·.data)) with
            | none =>
              -- a non-scalar payload among scalars raises inside the
              -- aggregators; the surrounding `except` reports failure.
              ({ success := false, error := some "unsupported operand type" }, s)
            | some values =>
              let weights := valid_responses.map
                (fun r => s.reputation_system.get_score r.provider_id)
              match aggregateValues s.config values weights with
              | none =>
                ({ success := false, error := some "aggregation method not found" }, s)
              | some result =>
                let request2 := { request with result := some (OData.num result),
                                               status := "FINALIZED" }
                let s2 := { s with requests := updateAssoc s.requests request_id request2 }
                let rep2 := update_reputations ops now s2.reputation_system
                  valid_responses result
                let s3 := { s2 with reputation_system := rep2 }
                ({ success := true, result := some (OData.num result),
                   providers := some valid_responses.length }, s3)
          | OData.dict _ =>
            match extract_dicts (valid_responses.map (·.data)) with
            | none =>
              ({ success := false, error := some "argument of type is not iterable" }, s)
            | some ds =>
              let result := merge_dicts ds
              let request2 := { request with result := some (OData.dict result),
                                             status := "FINALIZED" }
              let s2 := { s with requests := updateAssoc s.requests request_id request2 }
              ({ success := true, result := some (OData.dict result),
                 providers := some valid_responses.length }, s2)
          | OData.raw _ =>
            ({ success := false, error := some "Unsupported data type" }, s)

/-- `OracleNetwork.submit_response`: reject unknown requests, unregistered
providers, non-PENDING requests, passed deadlines (marking the request
EXPIRED as a side effect — note `if request.deadline` is falsy for a zero
deadline) and duplicate providers; otherwise store the verified response,
bump the provider's counters and auto-finalize at quorum. -/
def OracleNetwork.submit_response (ops : RealOps) (now : ℚ)
    (s : OracleNetwork) (request_id provider_id : String) (data : OData)
    (signature : Option String) : Bool × OracleNetwork :=
  match s.requests.lookup request_id with
  | none => (false, s)
  | some request =>
    if (s.data_providers.lookup provider_id).isNone then (false, s)
    else if request.status ≠ "PENDING" then (false, s)
    else
      let deadline_passed : Bool :=
        match request.deadline with
        | some d => !(d == 0) && decide (d < now)
        | none => false
      if deadline_passed then
        (false, { s with requests := updateAssoc s.requests request_id
                           { request with status := "EXPIRED" } })
      else
        let resps := (s.responses.lookup request_id).getD []
        if resps.any (fun r => r.provider_id == provider_id) then (false, s)
        else
          let response : DataResponse :=
            { request_id := request_id, provider_id := provider_id,
              data := data, timestamp := now, signature := signature }
          -- `_verify_response` mutates the appended response in place.
          let resps2 := resps ++ [verify_response response]
          let providers2 :=
            match s.data_providers.lookup provider_id with
            | none => s.data_providers
            | some p => updateAssoc s.data_providers provider_id
                { p with response_count := p.response_count + 1, last_updated := now }
          let s2 := { s with responses := updateAssoc s.responses request_id resps2,
                             data_providers := providers2 }
          if s.config.auto_finalize && request.min_providers ≤ resps2.length then
            (true, (OracleNetwork.finalize_request ops now s2 request_id).2)
          else (true, s2)

/-- The snapshot dictionary of `get_request_status` (`none` models the
not-found error dictionary). -/
structure StatusSnapshot where
  request_id : String
  data_type : String
  status : String
  timestamp : ℚ
  deadline : Option ℚ
  requester : String
  response_count : Nat
  min_providers : Nat
  result : Option OData
deriving DecidableEq, Repr

/-- `OracleNetwork.get_request_status`: a pure read of the stored request
(no deadline check is performed here). -/
def OracleNetwork.get_request_status (s : OracleNetwork) (request_id : String) :
    Option StatusSnapshot :=
  match s.requests.lookup request_id with
  | none => none
  | some request =>
    some { request_id := request_id, data_type := request.data_type,
           status := request.status, timestamp := request.timestamp,
           deadline := request.deadline, requester := request.requester,
           response_count := ((s.responses.lookup request_id).getD []).length,
           min_providers := request.min_providers, result := request.result }

/-- The coordinator operations that can mutate the network state. -/
inductive NetOp where
  | register (now : ℚ) (provider : ProviderRec)
  | remove (provider_id : String)
  | submitRequest (now : ℚ) (request_id data_type : String)
      (parameters : List (String × String)) (requester : String)
      (deadline : Option ℚ) (min_providers : Nat) (min_reputation : ℚ)
  | submitResponse (now : ℚ) (request_id provider_id : String)
      (data : OData) (signature : Option String)
  | finalizeRequest (now : ℚ) (request_id : String)

/-- Apply one coordinator operation. -/
def NetOp.apply (ops : RealOps) (op : NetOp) (s : OracleNetwork) : OracleNetwork :=
  match op with
  | .register now p => (s.register_provider now p).2
  | .remove pid => (s.remove_provider pid).2
  | .submitRequest now rid dt params requester deadline minP minRep =>
    s.submit_request now rid dt params requester deadline minP minRep
  | .submitResponse now rid pid data sig =>
    (s.submit_response ops now rid pid data sig).2
  | .finalizeRequest now rid => (s.finalize_request ops now rid).2

/-- `submit_request` ids come from `uuid.uuid4()`: a fresh id never
collides with a stored request. -/
def NetOp.freshOk (op : NetOp) (s : OracleNetwork) : Prop :=
  match op with
  | .submitRequest _ rid _ _ _ _ _ _ => s.requests.lookup rid = none
  | _ => True

/-- At most one response per `(request_id, provider_id)` pair. -/
def ResponsesInv (s : OracleNetwork) : Prop :=
  ∀ p ∈ s.responses, (p.2.map (·.provider_id)).Nodup

/-- How one step can change the stored status of any request: it is left
alone, expired from PENDING, or finalized. -/
def StatusStep (s s' : OracleNetwork) : Prop :=
  ∀ k req, s.requests.lookup k = some req →
    ∃ req2, s'.requests.lookup k = some req2 ∧
      (req2 = req ∨ (req.status = "PENDING" ∧ req2.status = "EXPIRED") ∨
        req2.status = "FINALIZED")

/-- The accuracy history stored for an id (empty when absent). -/
def acc_history_of (rs : ReputationSystem) (id : String) : List ℚ :=
  ((rs.entities.lookup id).map (·.accuracy_history)).getD []


/-- The delta actually applied per response by `_update_reputations`,
written as a single function of the accuracy (spec-side restatement of
the threshold ladder; the source's `-2` arm never fires because every
accuracy below `0.4` is already below `0.6`). -/
def threshold_delta (acc : ℚ) : ℚ :=
  if 95/100 < acc then 2
  else if 9/10 < acc then 1
  else if 8/10 < acc then 1/2
  else if acc < 6/10 then -1
  else 0



/-- The spec-side per-key merge value of the amended structured-merge
claim: over the responses that carry `key`, the arithmetic mean when all
its values are numeric, else the most frequent value. -/
def merge_key_value (ds : List (List (String × OVal))) (key : String) : OVal :=
  let values := ds.filterMap (fun m => m.lookup key)
  if values.all (fun v => match v with | .num _ => true | .str _ => false) then
    OVal.num (list_mean (values.filterMap
      (fun v => match v with | .num x => some x | .str _ => none)))
  else (most_common values).getD (OVal.num 0)

/-! ### Concrete states used by witnesses and counterexamples.
All events in these traces share the timestamp `0` (or, for the expiry
traces, two fixed instants), so `days_since_update` is never positive and
the real-valued decay oracle is never consulted; `ops1` instantiates it
arbitrarily. -/

/-- An arbitrary instantiation of the real-valued oracle; the traces
below never reach a code path that applies it. -/
def ops1 : RealOps := ⟨fun _ _ => 1, fun _ => 0⟩

/-- A registered provider that has answered one request. -/
def provA (id : String) : ProviderRec :=
  { provider_id := id, name := id, supported_data_types := ["carbon"],
    response_count := 1, last_updated := 0 }

/-- A freshly registered provider. -/
def provA0 (id : String) : ProviderRec :=
  { provider_id := id, name := id, supported_data_types := ["carbon"] }

/-- A reputation entity at the default score. -/
def entA (id : String) : EntityRecord :=
  { entity_id := id, score := 50, history := [], accuracy_history := [],
    last_updated := 0, creation_time := 0 }

/-- A pending request with the default quorum of 3 and no deadline. -/
def reqA : DataRequest :=
  { request_id := "r", data_type := "carbon", parameters := [],
    requester := "alice", timestamp := 0, deadline := none }

/-- A verified scalar response to request `"r"`. -/
def respA (pid : String) (x : ℚ) : DataResponse :=
  { request_id := "r", provider_id := pid, data := OData.num x, timestamp := 0,
    status := "VERIFIED", verification_result := some true }

def respsA : List DataResponse := [respA "p1" 100, respA "p2" 90, respA "p3" 50]

/-- Three providers at score 50 and three verified responses `100, 90, 50`
to a quorum-3 request (auto-finalize off so that `finalize_request` can be
driven explicitly); `cexS_reachable` below rebuilds it by running the
coordinator operations. -/
def cexS : OracleNetwork :=
  { config := { auto_finalize := false },
    data_providers := [("p1", provA "p1"), ("p2", provA "p2"), ("p3", provA "p3")],
    reputation_system := { entities :=
      [("p1", entA "p1"), ("p2", entA "p2"), ("p3", entA "p3")] },
    requests := [("r", reqA)],
    responses := [("r", respsA)] }

/-- The operation sequence that produces `cexS` from an empty network. -/
def cexOps : List NetOp :=
  [.register 0 (provA0 "p1"), .register 0 (provA0 "p2"),
   .register 0 (provA0 "p3"),
   .submitRequest 0 "r" "carbon" [] "alice" none 3 50,
   .submitResponse 0 "r" "p1" (OData.num 100) none,
   .submitResponse 0 "r" "p2" (OData.num 90) none,
   .submitResponse 0 "r" "p3" (OData.num 50) none]

/-- `"p2"` after the first finalize of `cexS`: accuracy 7/8 earns `+0.5`. -/
def entB2 : EntityRecord :=
  { entity_id := "p2", score := 101/2,
    history := [{ timestamp := 0, old_score := 50, delta := 1/2,
                  new_score := 101/2, reason := none }],
    accuracy_history := [], last_updated := 0, creation_time := 0 }

def repB : ReputationSystem :=
  { entities := [("p1", entA "p1"), ("p2", entB2), ("p3", entA "p3")] }

def req2A : DataRequest :=
  { reqA with result := some (OData.num 80), status := "FINALIZED" }

/-- The network after the first `finalize_request` on `cexS`. -/
def state1 : OracleNetwork :=
  { cexS with requests := updateAssoc cexS.requests "r" req2A,
              reputation_system := repB }

/-- `"p2"` after the second finalize: another `+0.5` from the drifted result. -/
def entC2 : EntityRecord :=
  { entity_id := "p2", score := 51,
    history := [{ timestamp := 0, old_score := 50, delta := 1/2,
                  new_score := 101/2, reason := none },
                { timestamp := 0, old_score := 101/2, delta := 1/2,
                  new_score := 51, reason := none }],
    accuracy_history := [], last_updated := 0, creation_time := 0 }

def repC : ReputationSystem :=
  { entities := [("p1", entA "p1"), ("p2", entC2), ("p3", entA "p3")] }

def req3A : DataRequest :=
  { req2A with result := some (OData.num (24090/301)) }

/-- The network after the second `finalize_request`. -/
def state2 : OracleNetwork :=
  { state1 with requests := updateAssoc state1.requests "r" req3A,
                reputation_system := repC }

/-- Responses `60, 60, 105` (mean 75) whose accuracies `0.8, 0.8, 0.6` all
fall in the neutral band, so finalize applies no reputation delta. -/
def respsN : List DataResponse := [respA "p1" 60, respA "p2" 60, respA "p3" 105]

def cexN : OracleNetwork := { cexS with responses := [("r", respsN)] }

/-- A request created at time 0 with deadline 5 and never touched since. -/
def cex3 : OracleNetwork :=
  ({} : OracleNetwork).submit_request 0 "rq" "carbon" [] "bob" (some 5) 3 50

def reqD : DataRequest :=
  { request_id := "rq", data_type := "carbon", parameters := [],
    requester := "bob", timestamp := 0, deadline := some 5 }

def cex3b : OracleNetwork :=
  { cex3 with data_providers := [("p1", provA "p1")] }

/-- Only two of three required responses. -/
def resps5 : List DataResponse := [respA "p1" 100, respA "p2" 90]

def cex5 : OracleNetwork := { cexS with responses := [("r", resps5)] }

/-- A verified scalar response to request `"ru"`. -/
def resp4 (pid : String) (x : ℚ) : DataResponse :=
  { request_id := "ru", provider_id := pid, data := OData.num x, timestamp := 0,
    status := "VERIFIED", verification_result := some true }

def resps4 : List DataResponse := [resp4 "p1" 60, resp4 "p2" 60, resp4 "p3" 105]

/-- A quorum-3 request with deadline 5 that already collected three
responses (submitted before the deadline). -/
def req4 : DataRequest :=
  { request_id := "ru", data_type := "carbon", parameters := [],
    requester := "bob", timestamp := 0, deadline := some 5 }

def cex4 : OracleNetwork :=
  { config := { auto_finalize := false },
    data_providers := [("p1", provA "p1"), ("p2", provA "p2"),
                       ("p3", provA "p3"), ("p4", provA "p4")],
    reputation_system := { entities :=
      [("p1", entA "p1"), ("p2", entA "p2"), ("p3", entA "p3"), ("p4", entA "p4")] },
    requests := [("ru", req4)],
    responses := [("ru", resps4)] }

def req4x : DataRequest := { req4 with status := "EXPIRED" }

/-- `cex4` after the late submission by `"p4"` marked the request EXPIRED. -/
def cex4x : OracleNetwork :=
  { cex4 with requests := updateAssoc cex4.requests "ru" req4x }

/-- A one-entity reputation store at the default configuration. -/
def repW : ReputationSystem := { entities := [("a", entA "a")] }

/-- A request that already holds a response from `"p1"`. -/
def cex8 : OracleNetwork :=
  { cexS with responses := [("r", [respA "p1" 100])] }

def dctA : List (String × OVal) := [("a", OVal.num 1)]
def dctB : List (String × OVal) := [("a", OVal.num 3), ("b", OVal.num 5)]
def dctC : List (String × OVal) := [("a", OVal.num 2)]

/-- A verified mapping-valued response to request `"r"`. -/
def respD (pid : String) (m : List (String × OVal)) : DataResponse :=
  { request_id := "r", provider_id := pid, data := OData.dict m, timestamp := 0,
    status := "VERIFIED", verification_result := some true }

def respsD : List DataResponse := [respD "p1" dctA, respD "p2" dctB, respD "p3" dctC]

/-- Three mapping responses; only the second carries the key `"b"`. -/
def cexD : OracleNetwork := { cexS with responses := [("r", respsD)] }

/-- A pending request with no registered providers at all. -/
def cex10 : OracleNetwork :=
  { requests := [("r", reqA)], responses := [("r", [])] }

/-! ### Helper lemmas about association lists and clamping -/

theorem lookup_updateAssoc_self {α : Type} (l : List (String × α)) (k : String)
    (v : α) : (updateAssoc l k v).lookup k = some v := by
  induction l with
  | nil => simp [updateAssoc, List.lookup]
  | cons p t ih =>
    by_cases h : p.1 = k
    · simp [updateAssoc, h, List.lookup]
    · simp only [updateAssoc, beq_iff_eq, h, if_false, List.lookup]
      have : (k == p.1) = false := by
        simp [beq_iff_eq]; exact fun hh => h hh.symm
      simp [this, ih]

theorem lookup_updateAssoc_ne {α : Type} (l : List (String × α)) (k k' : String)
    (v : α) (h : k' ≠ k) : (updateAssoc l k v).lookup k' = l.lookup k' := by
  have hkk : (k' == k) = false := by simp [beq_iff_eq, h]
  induction l with
  | nil => simp [updateAssoc, List.lookup, hkk]
  | cons p t ih =>
    by_cases hp : p.1 = k
    · have : (k' == k) = false := by simp [beq_iff_eq, h]
      simp [updateAssoc, hp, List.lookup, this, beq_iff_eq]
    · simp only [updateAssoc, beq_iff_eq, hp, if_false, List.lookup]
      by_cases hk : k' = p.1
      · simp [hk]
      · have h1 : (k' == p.1) = false := by simp [beq_iff_eq, hk]
        simp [h1, ih]

theorem mem_updateAssoc {α : Type} {l : List (String × α)} {k : String}
    {v : α} {p : String × α} (h : p ∈ updateAssoc l k v) :
    p = (k, v) ∨ p ∈ l := by
  induction l with
  | nil => simpa [updateAssoc] using h
  | cons q t ih =>
    by_cases hq : q.1 = k
    · simp only [updateAssoc, beq_iff_eq, hq, if_true, List.mem_cons] at h
      rcases h with h | h
      · exact Or.inl h
      · exact Or.inr (List.mem_cons_of_mem _ h)
    · simp only [updateAssoc, beq_iff_eq, hq, if_false, List.mem_cons] at h
      rcases h with h | h
      · exact Or.inr (by simp [h])
      · rcases ih h with h1 | h1
        · exact Or.inl h1
        · exact Or.inr (List.mem_cons_of_mem _ h1)

theorem lookup_mem {α : Type} {l : List (String × α)} {k : String} {v : α}
    (h : l.lookup k = some v) : (k, v) ∈ l := by
  induction l with
  | nil => simp [List.lookup] at h
  | cons p t ih =>
    rw [List.lookup] at h
    cases hb : (k == p.1) with
    | false =>
      simp only [hb] at h
      exact List.mem_cons_of_mem _ (ih h)
    | true =>
      simp only [hb] at h
      have hk : k = p.1 := by simpa [beq_iff_eq] using hb
      have hv : v = p.2 := by simpa using h.symm
      subst hk; subst hv
      simp

theorem clamp_bounds (cfg : RepConfig) (x : ℚ)
    (h : cfg.min_score ≤ cfg.max_score) :
    cfg.min_score ≤ cfg.clamp x ∧ cfg.clamp x ≤ cfg.max_score := by
  refine ⟨le_max_left _ _, max_le h (min_le_left _ _)⟩

/-! ### Characterization lemmas for `finalize_request` -/

theorem finalize_not_found (ops : RealOps) (now : ℚ) (s : OracleNetwork)
    (rid : String) (h : s.requests.lookup rid = none) :
    s.finalize_request ops now rid =
      ({ success := false, error := some "Request not found" }, s) := by
  simp only [OracleNetwork.finalize_request, h]

theorem finalize_too_few (ops : RealOps) (now : ℚ) (s : OracleNetwork)
    (rid : String) (req : DataRequest)
    (h : s.requests.lookup rid = some req)
    (h2 : ((s.responses.lookup rid).getD []).length < req.min_providers) :
    s.finalize_request ops now rid =
      ({ success := false, error := some "Not enough responses" }, s) := by
  simp only [OracleNetwork.finalize_request, h, if_pos h2]

theorem finalize_too_few_valid (ops : RealOps) (now : ℚ) (s : OracleNetwork)
    (rid : String) (req : DataRequest)
    (h : s.requests.lookup rid = some req)
    (h2 : ¬ ((s.responses.lookup rid).getD []).length < req.min_providers)
    (h3 : (((s.responses.lookup rid).getD []).filter is_valid_response).length <
            req.min_providers) :
    s.finalize_request ops now rid =
      ({ success := false, error := some "Not enough valid responses" }, s) := by
  simp only [OracleNetwork.finalize_request, h, if_neg h2, if_pos h3]

theorem finalize_numeric_eq (ops : RealOps) (now : ℚ) (s : OracleNetwork)
    (rid : String) (req : DataRequest) (resps : List DataResponse)
    (values : List ℚ) (ρ : ℚ)
    (h1 : s.requests.lookup rid = some req)
    (hresp : (s.responses.lookup rid).getD [] = resps)
    (hval : resps.filter is_valid_response = resps)
    (hlen : req.min_providers ≤ resps.length)
    (hne : resps ≠ [])
    (hnums : extract_nums (resps.map (·.data)) = some values)
    (hagg : aggregateValues s.config values
        (resps.map (fun r => s.reputation_system.get_score r.provider_id)) =
          some ρ) :
    s.finalize_request ops now rid =
      ({ success := true, error := none, result := some (OData.num ρ),
         providers := some resps.length },
       { s with
         requests :=
           updateAssoc s.requests rid
             { req with result := some (OData.num ρ), status := "FINALIZED" },
         reputation_system :=
           update_reputations ops now s.reputation_system resps ρ }) := by
  obtain ⟨r0, rest, rfl⟩ : ∃ r0 rest, resps = r0 :: rest := by
    cases resps with
    | nil => exact absurd rfl hne
    | cons a b => exact ⟨a, b, rfl⟩
  obtain ⟨x0, hd⟩ : ∃ x0, r0.data = OData.num x0 := by
    cases hr : r0.data with
    | num x => exact ⟨x, rfl⟩
    | dict m => rw [List.map, hr] at hnums; simp [extract_nums] at hnums
    | raw m => rw [List.map, hr] at hnums; simp [extract_nums] at hnums
  simp only [OracleNetwork.finalize_request, h1, hresp, hval,
    if_neg (Nat.not_lt.2 hlen), hd, hnums, hagg]

theorem finalize_dict_eq (ops : RealOps) (now : ℚ) (s : OracleNetwork)
    (rid : String) (req : DataRequest) (resps : List DataResponse)
    (ds : List (List (String × OVal)))
    (h1 : s.requests.lookup rid = some req)
    (hresp : (s.responses.lookup rid).getD [] = resps)
    (hval : resps.filter is_valid_response = resps)
    (hlen : req.min_providers ≤ resps.length)
    (hne : resps ≠ [])
    (hdicts : extract_dicts (resps.map (·.data)) = some ds) :
    s.finalize_request ops now rid =
      ({ success := true, error := none,
         result := some (OData.dict (merge_dicts ds)),
         providers := some resps.length },
       { s with
         requests :=
           updateAssoc s.requests rid
             { req with result := some (OData.dict (merge_dicts ds)),
                        status := "FINALIZED" } }) := by
  obtain ⟨r0, rest, rfl⟩ : ∃ r0 rest, resps = r0 :: rest := by
    cases resps with
    | nil => exact absurd rfl hne
    | cons a b => exact ⟨a, b, rfl⟩
  obtain ⟨m0, hd⟩ : ∃ m0, r0.data = OData.dict m0 := by
    cases hr : r0.data with
    | dict m => exact ⟨m, rfl⟩
    | num x => rw [List.map, hr] at hdicts; simp [extract_dicts] at hdicts
    | raw m => rw [List.map, hr] at hdicts; simp [extract_dicts] at hdicts
  simp only [OracleNetwork.finalize_request, h1, hresp, hval,
    if_neg (Nat.not_lt.2 hlen), hd, hdicts]

theorem finalize_responses_unchanged (ops : RealOps) (now : ℚ)
    (s : OracleNetwork) (rid : String) :
    (s.finalize_request ops now rid).2.responses = s.responses := by
  simp only [OracleNetwork.finalize_request]
  repeat' split
  all_goals rfl

theorem finalize_providers_unchanged (ops : RealOps) (now : ℚ)
    (s : OracleNetwork) (rid : String) :
    (s.finalize_request ops now rid).2.data_providers = s.data_providers := by
  simp only [OracleNetwork.finalize_request]
  repeat' split
  all_goals rfl

theorem finalize_status_step (ops : RealOps) (now : ℚ) (s : OracleNetwork)
    (rid : String) : StatusStep s (s.finalize_request ops now rid).2 := by
  intro k req hk
  by_cases hkr : k = rid
  · subst hkr
    simp only [OracleNetwork.finalize_request, hk]
    repeat' split
    all_goals
      first
        | exact ⟨req, hk, Or.inl rfl⟩
        | exact ⟨_, lookup_updateAssoc_self _ _ _, Or.inr (Or.inr rfl)⟩
  · simp only [OracleNetwork.finalize_request]
    repeat' split
    all_goals
      first
        | exact ⟨req, hk, Or.inl rfl⟩
        | exact ⟨req, (lookup_updateAssoc_ne _ _ _ _ hkr).trans hk, Or.inl rfl⟩

/-! ### Characterization lemmas for `submit_response` -/

theorem submit_response_no_request (ops : RealOps) (now : ℚ) (s : OracleNetwork)
    (rid pid : String) (data : OData) (sig : Option String)
    (hr : s.requests.lookup rid = none) :
    s.submit_response ops now rid pid data sig = (false, s) := by
  simp only [OracleNetwork.submit_response, hr]

theorem submit_response_unregistered (ops : RealOps) (now : ℚ)
    (s : OracleNetwork) (rid pid : String) (data : OData) (sig : Option String)
    (hp : s.data_providers.lookup pid = none) :
    s.submit_response ops now rid pid data sig = (false, s) := by
  cases hr : s.requests.lookup rid with
  | none => simp only [OracleNetwork.submit_response, hr]
  | some req => simp only [OracleNetwork.submit_response, hr, hp, Option.isNone_none,
      if_pos]

theorem submit_response_not_pending (ops : RealOps) (now : ℚ)
    (s : OracleNetwork) (rid pid : String) (data : OData) (sig : Option String)
    (req : DataRequest) (hr : s.requests.lookup rid = some req)
    (hst : req.status ≠ "PENDING") :
    s.submit_response ops now rid pid data sig = (false, s) := by
  simp only [OracleNetwork.submit_response, hr]
  by_cases hp : (s.data_providers.lookup pid).isNone
  · simp [hp]
  · simp [hp, hst]

theorem submit_response_expired_eq (ops : RealOps) (now : ℚ)
    (s : OracleNetwork) (rid pid : String) (data : OData) (sig : Option String)
    (req : DataRequest) (d : ℚ) (hr : s.requests.lookup rid = some req)
    (hp : (s.data_providers.lookup pid).isNone = false)
    (hst : req.status = "PENDING") (hd : req.deadline = some d)
    (h0 : d ≠ 0) (hn : d < now) :
    s.submit_response ops now rid pid data sig =
      (false, { s with requests := updateAssoc s.requests rid
                         { req with status := "EXPIRED" } }) := by
  simp only [OracleNetwork.submit_response, hr, hp, Bool.false_eq_true,
    if_false, hst, hd]
  have hb : (!(d == 0) && decide (d < now)) = true := by
    simp [h0, hn]
  simp [hb]

theorem submit_response_false_of_deadline (ops : RealOps) (now : ℚ)
    (s : OracleNetwork) (rid pid : String) (data : OData) (sig : Option String)
    (req : DataRequest) (d : ℚ) (hr : s.requests.lookup rid = some req)
    (hd : req.deadline = some d) (h0 : d ≠ 0) (hn : d < now) :
    (s.submit_response ops now rid pid data sig).1 = false := by
  by_cases hp : (s.data_providers.lookup pid).isNone
  · cases hpv : s.data_providers.lookup pid with
    | none => rw [submit_response_unregistered ops now s rid pid data sig hpv]
    | some p => rw [hpv] at hp; simp at hp
  · by_cases hst : req.status = "PENDING"
    · rw [submit_response_expired_eq ops now s rid pid data sig req d hr
        (by simpa using hp) hst hd h0 hn]
    · rw [submit_response_not_pending ops now s rid pid data sig req hr hst]

theorem submit_response_duplicate (ops : RealOps) (now : ℚ)
    (s : OracleNetwork) (rid pid : String) (data : OData) (sig : Option String)
    (req : DataRequest) (hr : s.requests.lookup rid = some req)
    (hp : (s.data_providers.lookup pid).isNone = false)
    (hst : req.status = "PENDING")
    (hdl : (match req.deadline with
            | some d => !(d == 0) && decide (d < now)
            | none => false) = false)
    (hdup : (((s.responses.lookup rid).getD []).any
              fun r => r.provider_id == pid) = true) :
    s.submit_response ops now rid pid data sig = (false, s) := by
  simp only [OracleNetwork.submit_response, hr, hp, Bool.false_eq_true, if_false,
    hst, hdl, hdup]
  simp

theorem submit_response_responses_shape (ops : RealOps) (now : ℚ)
    (s : OracleNetwork) (rid pid : String) (data : OData) (sig : Option String) :
    (s.submit_response ops now rid pid data sig).2.responses = s.responses ∨
    (∃ resps, (s.responses.lookup rid).getD [] = resps ∧
      (resps.any fun r => r.provider_id == pid) = false ∧
      (s.submit_response ops now rid pid data sig).2.responses =
        updateAssoc s.responses rid (resps ++
          [verify_response { request_id := rid, provider_id := pid, data := data,
                             timestamp := now, signature := sig }])) := by
  cases hr : s.requests.lookup rid with
  | none => left; rw [submit_response_no_request ops now s rid pid data sig hr]
  | some req =>
    cases hpv : s.data_providers.lookup pid with
    | none => left; rw [submit_response_unregistered ops now s rid pid data sig hpv]
    | some p =>
      by_cases hst : req.status = "PENDING"
      · cases hdl : (match req.deadline with
                     | some d => !(d == 0) && decide (d < now)
                     | none => false) with
        | true =>
          left
          obtain ⟨d, hd, h0, hn⟩ : ∃ d, req.deadline = some d ∧ d ≠ 0 ∧ d < now := by
            cases hdc : req.deadline with
            | none => rw [hdc] at hdl; simp at hdl
            | some d =>
              rw [hdc] at hdl
              simp only [Bool.and_eq_true, bne_iff_ne, ne_eq, decide_eq_true_eq] at hdl
              exact ⟨d, rfl, by simpa using hdl.1, hdl.2⟩
          rw [submit_response_expired_eq ops now s rid pid data sig req d hr
            (by simp [hpv]) hst hd h0 hn]
        | false =>
          by_cases hdup : (((s.responses.lookup rid).getD []).any
              fun r => r.provider_id == pid) = true
          · left
            rw [submit_response_duplicate ops now s rid pid data sig req hr
              (by simp [hpv]) hst hdl hdup]
          · right
            refine ⟨(s.responses.lookup rid).getD [], rfl,
              by simpa using hdup, ?_⟩
            simp only [OracleNetwork.submit_response, hr, hpv, Option.isNone_some,
              Bool.false_eq_true, if_false, hst, ne_eq, not_true_eq_false, hdl,
              eq_self_iff_true, not_false_iff, if_true,
              Bool.not_eq_true, hdup]
            split
            · rw [finalize_responses_unchanged]
            · rfl
      · left
        rw [submit_response_not_pending ops now s rid pid data sig req hr hst]

theorem register_responses_unchanged (s : OracleNetwork) (now : ℚ)
    (p : ProviderRec) : (s.register_provider now p).2.responses = s.responses := by
  simp only [OracleNetwork.register_provider]
  repeat' split
  all_goals rfl

theorem remove_responses_unchanged (s : OracleNetwork) (pid : String) :
    (s.remove_provider pid).2.responses = s.responses := by
  simp only [OracleNetwork.remove_provider]
  repeat' split
  all_goals rfl

theorem register_requests_unchanged (s : OracleNetwork) (now : ℚ)
    (p : ProviderRec) : (s.register_provider now p).2.requests = s.requests := by
  simp only [OracleNetwork.register_provider]
  repeat' split
  all_goals rfl

theorem remove_requests_unchanged (s : OracleNetwork) (pid : String) :
    (s.remove_provider pid).2.requests = s.requests := by
  simp only [OracleNetwork.remove_provider]
  repeat' split
  all_goals rfl

/-- Every coordinator operation preserves the one-response-per-provider
invariant (the `submit_request` case relies on uuid freshness only in
that overwriting a request resets its response list to `[]`, which is
trivially duplicate-free). -/
theorem netop_preserves_responses_inv (ops : RealOps) (op : NetOp)
    (s : OracleNetwork) (h : ResponsesInv s) :
    ResponsesInv (NetOp.apply ops op s) := by
  cases op with
  | register now p =>
    intro q hq
    rw [NetOp.apply, register_responses_unchanged] at hq
    exact h q hq
  | remove pid =>
    intro q hq
    rw [NetOp.apply, remove_responses_unchanged] at hq
    exact h q hq
  | submitRequest now rid dt params requester deadline minP minRep =>
    intro q hq
    simp only [NetOp.apply, OracleNetwork.submit_request] at hq
    rcases mem_updateAssoc hq with rfl | hm
    · simp
    · exact h q hm
  | finalizeRequest now rid =>
    intro q hq
    rw [NetOp.apply, finalize_responses_unchanged] at hq
    exact h q hq
  | submitResponse now rid pid data sig =>
    intro q hq
    rw [NetOp.apply] at hq
    rcases submit_response_responses_shape ops now s rid pid data sig with
      heq | ⟨resps, hres, hnodup, heq⟩
    · rw [heq] at hq
      exact h q hq
    · rw [heq] at hq
      rcases mem_updateAssoc hq with rfl | hm
      · simp only [List.map_append, List.map_cons, List.map_nil]
        have hold : (resps.map (·.provider_id)).Nodup := by
          cases hlu : s.responses.lookup rid with
          | none =>
            rw [hlu] at hres
            simp only [Option.getD_none] at hres
            subst hres
            simp
          | some l =>
            rw [hlu] at hres
            simp only [Option.getD_some] at hres
            subst hres
            exact h (rid, l) (lookup_mem hlu)
        have hnotin : pid ∉ resps.map (·.provider_id) := by
          simp only [List.any_eq_false, beq_iff_eq] at hnodup
          simp only [List.mem_map]
          rintro ⟨r, hrm, hrd⟩
          exact hnodup r hrm hrd
        simp [List.nodup_append, hold, verify_response, hnotin]
      · exact h q hm

theorem submit_response_status_step (ops : RealOps) (now : ℚ)
    (s : OracleNetwork) (rid pid : String) (data : OData) (sig : Option String) :
    StatusStep s (s.submit_response ops now rid pid data sig).2 := by
  intro k req hk
  cases hr : s.requests.lookup rid with
  | none =>
    rw [submit_response_no_request ops now s rid pid data sig hr]
    exact ⟨req, hk, Or.inl rfl⟩
  | some reqr =>
    cases hpv : s.data_providers.lookup pid with
    | none =>
      rw [submit_response_unregistered ops now s rid pid data sig hpv]
      exact ⟨req, hk, Or.inl rfl⟩
    | some p =>
      by_cases hst : reqr.status = "PENDING"
      · cases hdl : (match reqr.deadline with
                     | some d => !(d == 0) && decide (d < now)
                     | none => false) with
        | true =>
          obtain ⟨d, hd, h0, hn⟩ : ∃ d, reqr.deadline = some d ∧ d ≠ 0 ∧ d < now := by
            cases hdc : reqr.deadline with
            | none => rw [hdc] at hdl; simp at hdl
            | some d =>
              rw [hdc] at hdl
              simp only [Bool.and_eq_true, bne_iff_ne, ne_eq, decide_eq_true_eq] at hdl
              exact ⟨d, rfl, by simpa using hdl.1, hdl.2⟩
          rw [submit_response_expired_eq ops now s rid pid data sig reqr d hr
            (by simp [hpv]) hst hd h0 hn]
          by_cases hkr : k = rid
          · subst hkr
            have : req = reqr := by rw [hk] at hr; exact Option.some_injective _ hr
            subst this
            exact ⟨{ req with status := "EXPIRED" },
              lookup_updateAssoc_self _ _ _, Or.inr (Or.inl ⟨hst, rfl⟩)⟩
          · exact ⟨req, (lookup_updateAssoc_ne _ _ _ _ hkr).trans hk, Or.inl rfl⟩
        | false =>
          by_cases hdup : (((s.responses.lookup rid).getD []).any
              fun r => r.provider_id == pid) = true
          · rw [submit_response_duplicate ops now s rid pid data sig reqr hr
              (by simp [hpv]) hst hdl hdup]
            exact ⟨req, hk, Or.inl rfl⟩
          · simp only [OracleNetwork.submit_response, hr, hpv, Option.isNone_some,
              Bool.false_eq_true, if_false, hst, ne_eq, not_true_eq_false, hdl,
              eq_self_iff_true, not_false_iff, if_true, Bool.not_eq_true, hdup]
            split
            · exact finalize_status_step ops now _ rid k req hk
            · exact ⟨req, hk, Or.inl rfl⟩
      · rw [submit_response_not_pending ops now s rid pid data sig reqr hr hst]
        exact ⟨req, hk, Or.inl rfl⟩

/-- Status evolution across every coordinator operation (uuid freshness
assumed for `submit_request`). -/
theorem netop_status_step (ops : RealOps) (op : NetOp) (s : OracleNetwork)
    (hf : op.freshOk s) : StatusStep s (NetOp.apply ops op s) := by
  cases op with
  | register now p =>
    intro k req hk
    refine ⟨req, ?_, Or.inl rfl⟩
    rw [NetOp.apply, register_requests_unchanged]
    exact hk
  | remove pid =>
    intro k req hk
    refine ⟨req, ?_, Or.inl rfl⟩
    rw [NetOp.apply, remove_requests_unchanged]
    exact hk
  | submitRequest now rid dt params requester deadline minP minRep =>
    intro k req hk
    by_cases hkr : k = rid
    · subst hkr
      rw [NetOp.freshOk] at hf
      rw [hf] at hk
      cases hk
    · refine ⟨req, ?_, Or.inl rfl⟩
      simp only [NetOp.apply, OracleNetwork.submit_request]
      rw [lookup_updateAssoc_ne _ _ _ _ hkr]
      exact hk
  | submitResponse now rid pid data sig =>
    exact submit_response_status_step ops now s rid pid data sig
  | finalizeRequest now rid =>
    exact finalize_status_step ops now s rid

/-! ### Lemmas about reputation updates -/

theorem lookup_append_single_self {α : Type} (l : List (String × α))
    (k : String) (v : α) (h : l.lookup k = none) :
    (l ++ [(k, v)]).lookup k = some v := by
  induction l with
  | nil => simp [List.lookup]
  | cons p t ih =>
    rw [List.lookup] at h
    rw [List.cons_append, List.lookup]
    cases hb : (k == p.1) with
    | true => simp only [hb] at h; cases h
    | false =>
      simp only [hb] at h ⊢
      exact ih h

theorem lookup_append_single_ne {α : Type} (l : List (String × α))
    (k k' : String) (v : α) (h : k' ≠ k) :
    (l ++ [(k, v)]).lookup k' = l.lookup k' := by
  have hb0 : (k' == k) = false := by simp [beq_iff_eq, h]
  induction l with
  | nil => simp [List.lookup, hb0]
  | cons p t ih =>
    rw [List.cons_append, List.lookup, List.lookup]
    cases hb : (k' == p.1) with
    | true => rfl
    | false => exact ih

theorem update_score_config (ops : RealOps) (now : ℚ) (rs : ReputationSystem)
    (id : String) (delta : ℚ) (reason : Option String) :
    (rs.update_score ops now id delta reason).2.config = rs.config := by
  simp only [ReputationSystem.update_score, ReputationSystem.add_entity]
  repeat' split
  all_goals rfl

theorem update_score_get_score_other (ops : RealOps) (now : ℚ)
    (rs : ReputationSystem) (id : String) (delta : ℚ) (reason : Option String)
    (k : String) (hk : k ≠ id) :
    (rs.update_score ops now id delta reason).2.get_score k = rs.get_score k := by
  cases hlu : rs.entities.lookup id with
  | some record =>
    simp only [ReputationSystem.update_score, hlu, Option.isSome_some, if_true,
      ReputationSystem.get_score]
    rw [lookup_updateAssoc_ne _ _ _ _ hk]
  | none =>
    simp only [ReputationSystem.update_score, hlu, Option.isSome_none,
      Bool.false_eq_true, if_false, ReputationSystem.add_entity,
      ReputationSystem.get_score, lookup_append_single_self _ _ _ hlu]
    rw [lookup_updateAssoc_ne _ _ _ _ hk, lookup_append_single_ne _ _ _ _ hk]

theorem update_score_acc_history (ops : RealOps) (now : ℚ)
    (rs : ReputationSystem) (id : String) (delta : ℚ) (reason : Option String)
    (k : String) :
    acc_history_of (rs.update_score ops now id delta reason).2 k =
      acc_history_of rs k := by
  by_cases hk : k = id
  · subst hk
    cases hlu : rs.entities.lookup k with
    | some record =>
      simp only [ReputationSystem.update_score, hlu, Option.isSome_some, if_true,
        acc_history_of]
      rw [lookup_updateAssoc_self]
      rfl
    | none =>
      simp only [ReputationSystem.update_score, hlu, Option.isSome_none,
        Bool.false_eq_true, if_false, ReputationSystem.add_entity,
        acc_history_of, lookup_append_single_self _ _ _ hlu]
      rw [lookup_updateAssoc_self]
      rfl
  · cases hlu : rs.entities.lookup id with
    | some record =>
      simp only [ReputationSystem.update_score, hlu, Option.isSome_some, if_true,
        acc_history_of]
      rw [lookup_updateAssoc_ne _ _ _ _ hk]
    | none =>
      simp only [ReputationSystem.update_score, hlu, Option.isSome_none,
        Bool.false_eq_true, if_false, ReputationSystem.add_entity,
        acc_history_of, lookup_append_single_self _ _ _ hlu]
      rw [lookup_updateAssoc_ne _ _ _ _ hk, lookup_append_single_ne _ _ _ _ hk]

theorem update_reputations_cons (ops : RealOps) (now : ℚ)
    (rs : ReputationSystem) (r : DataResponse) (rest : List DataResponse)
    (result : ℚ) :
    update_reputations ops now rs (r :: rest) result =
      update_reputations ops now (update_rep_one ops now rs r result) rest
        result := by
  simp [update_reputations]

theorem update_rep_one_eq_threshold (ops : RealOps) (now : ℚ)
    (rs : ReputationSystem) (r : DataResponse) (result d : ℚ)
    (hd : r.data = OData.num d) :
    update_rep_one ops now rs r result =
      if result = 0 ∨ threshold_delta (accuracy_of d result) = 0 then rs
      else (rs.update_score ops now r.provider_id
              (threshold_delta (accuracy_of d result)) none).2 := by
  simp only [update_rep_one, hd]
  by_cases h0 : result = 0
  · simp [h0]
  · simp only [ne_eq, h0, not_false_iff, if_true, false_or]
    set acc := accuracy_of d result with hacc
    by_cases h1 : 95/100 < acc
    · simp only [threshold_delta, h1, if_true, if_pos]
      norm_num
    · by_cases h2 : 9/10 < acc
      · simp only [threshold_delta, h1, if_false, h2, if_true]
        norm_num
      · by_cases h3 : 8/10 < acc
        · simp only [threshold_delta, h1, if_false, h2, h3, if_true]
          norm_num
        · by_cases h4 : acc < 6/10
          · simp only [threshold_delta, h1, if_false, h2, h3, h4, if_true]
            norm_num
          · have h5 : ¬ acc < 4/10 := by
              intro hc
              exact h4 (lt_trans hc (by norm_num))
            simp only [threshold_delta, h1, if_false, h2, h3, h4, h5]
            norm_num

theorem update_rep_one_neutral (ops : RealOps) (now : ℚ)
    (rs : ReputationSystem) (r : DataResponse) (result : ℚ)
    (h : ∀ d, r.data = OData.num d → result ≠ 0 →
          6/10 ≤ accuracy_of d result ∧ accuracy_of d result ≤ 8/10) :
    update_rep_one ops now rs r result = rs := by
  cases hd : r.data with
  | num d =>
    rw [update_rep_one_eq_threshold ops now rs r result d hd]
    by_cases h0 : result = 0
    · simp [h0]
    · obtain ⟨hlo, hhi⟩ := h d hd h0
      have : threshold_delta (accuracy_of d result) = 0 := by
        unfold threshold_delta
        rw [if_neg (by linarith), if_neg (by linarith), if_neg (by linarith),
          if_neg (by linarith)]
      simp [this]
  | dict m => simp [update_rep_one, hd]
  | raw m => simp [update_rep_one, hd]

theorem update_reputations_neutral (ops : RealOps) (now : ℚ)
    (rs : ReputationSystem) (resps : List DataResponse) (result : ℚ)
    (h : ∀ r ∈ resps, ∀ d, r.data = OData.num d → result ≠ 0 →
          6/10 ≤ accuracy_of d result ∧ accuracy_of d result ≤ 8/10) :
    update_reputations ops now rs resps result = rs := by
  induction resps generalizing rs with
  | nil => rfl
  | cons r rest ih =>
    rw [update_reputations_cons,
      update_rep_one_neutral ops now rs r result (h r (List.mem_cons_self r rest))]
    exact ih rs (fun q hq => h q (List.mem_cons_of_mem _ hq))

theorem update_rep_one_get_score_other (ops : RealOps) (now : ℚ)
    (rs : ReputationSystem) (r : DataResponse) (result : ℚ) (k : String)
    (hk : k ≠ r.provider_id) :
    (update_rep_one ops now rs r result).get_score k = rs.get_score k := by
  simp only [update_rep_one]
  repeat' split
  all_goals
    first
      | rfl
      | exact update_score_get_score_other ops now rs r.provider_id _ none k hk

theorem update_reputations_get_score_other (ops : RealOps) (now : ℚ)
    (rs : ReputationSystem) (resps : List DataResponse) (result : ℚ)
    (k : String) (hk : k ∉ resps.map (·.provider_id)) :
    (update_reputations ops now rs resps result).get_score k = rs.get_score k := by
  induction resps generalizing rs with
  | nil => rfl
  | cons r rest ih =>
    simp only [List.map_cons, List.mem_cons, not_or] at hk
    rw [update_reputations_cons,
      ih (update_rep_one ops now rs r result) (by exact fun h => hk.2 h),
      update_rep_one_get_score_other ops now rs r result k hk.1]

theorem update_rep_one_acc_history (ops : RealOps) (now : ℚ)
    (rs : ReputationSystem) (r : DataResponse) (result : ℚ) (k : String) :
    acc_history_of (update_rep_one ops now rs r result) k =
      acc_history_of rs k := by
  simp only [update_rep_one]
  repeat' split
  all_goals
    first
      | rfl
      | exact update_score_acc_history ops now rs r.provider_id _ none k

theorem update_reputations_acc_history (ops : RealOps) (now : ℚ)
    (rs : ReputationSystem) (resps : List DataResponse) (result : ℚ)
    (k : String) :
    acc_history_of (update_reputations ops now rs resps result) k =
      acc_history_of rs k := by
  induction resps generalizing rs with
  | nil => rfl
  | cons r rest ih =>
    rw [update_reputations_cons, ih, update_rep_one_acc_history]

/-! ### Score-bound preservation lemmas -/

theorem add_entity_config (s : ReputationSystem) (now : ℚ) (id : String)
    (init : Option ℚ) : (s.add_entity now id init).2.config = s.config := by
  simp only [ReputationSystem.add_entity]
  repeat' split
  all_goals rfl

theorem record_accuracy_config (ops : RealOps) (now : ℚ) (s : ReputationSystem)
    (id : String) (acc w : ℚ) :
    (s.record_accuracy ops now id acc w).2.config = s.config := by
  simp only [ReputationSystem.record_accuracy, ReputationSystem.add_entity]
  repeat' split
  all_goals first
    | rfl
    | rw [update_score_config]

theorem add_entity_inv (s : ReputationSystem) (now : ℚ) (id : String)
    (init : Option ℚ) (hmm : s.config.min_score ≤ s.config.max_score)
    (h : RepInv s) : RepInv (s.add_entity now id init).2 := by
  intro p hp
  rw [add_entity_config]
  by_cases he : (s.entities.lookup id).isSome
  · simp only [ReputationSystem.add_entity, he, if_true] at hp
    exact h p hp
  · simp only [ReputationSystem.add_entity, he, if_false] at hp
    rcases List.mem_append.1 hp with hm | hm
    · exact h p hm
    · simp only [List.mem_singleton] at hm
      subst hm
      exact clamp_bounds _ _ hmm

theorem update_score_inv (ops : RealOps) (now : ℚ) (s : ReputationSystem)
    (id : String) (delta : ℚ) (reason : Option String)
    (hmm : s.config.min_score ≤ s.config.max_score) (h : RepInv s) :
    RepInv (s.update_score ops now id delta reason).2 := by
  intro p hp
  rw [update_score_config]
  cases hlu : s.entities.lookup id with
  | some record =>
    simp only [ReputationSystem.update_score, hlu, Option.isSome_some,
      if_true] at hp
    rcases mem_updateAssoc hp with rfl | hm
    · exact clamp_bounds _ _ hmm
    · exact h p hm
  | none =>
    simp only [ReputationSystem.update_score, hlu, Option.isSome_none,
      Bool.false_eq_true, if_false, ReputationSystem.add_entity,
      lookup_append_single_self _ _ _ hlu] at hp
    rcases mem_updateAssoc hp with rfl | hm
    · exact clamp_bounds _ _ hmm
    · rcases List.mem_append.1 hm with hm1 | hm2
      · exact h p hm1
      · simp only [List.mem_singleton] at hm2
        subst hm2
        exact clamp_bounds _ _ hmm

theorem record_accuracy_inv (ops : RealOps) (now : ℚ) (s : ReputationSystem)
    (id : String) (acc w : ℚ)
    (hmm : s.config.min_score ≤ s.config.max_score) (h : RepInv s) :
    RepInv (s.record_accuracy ops now id acc w).2 := by
  cases hlu : s.entities.lookup id with
  | some record =>
    simp only [ReputationSystem.record_accuracy, hlu, Option.isSome_some, if_true]
    apply update_score_inv
    · exact hmm
    · intro p hp
      rcases mem_updateAssoc hp with rfl | hm
      · exact h (id, record) (lookup_mem hlu)
      · exact h p hm
  | none =>
    simp only [ReputationSystem.record_accuracy, hlu, Option.isSome_none,
      Bool.false_eq_true, if_false, ReputationSystem.add_entity,
      lookup_append_single_self _ _ _ hlu]
    apply update_score_inv
    · exact hmm
    · intro p hp
      rcases mem_updateAssoc hp with rfl | hm
      · exact clamp_bounds _ _ hmm
      · rcases List.mem_append.1 hm with hm1 | hm2
        · exact h p hm1
        · simp only [List.mem_singleton] at hm2
          subst hm2
          exact clamp_bounds _ _ hmm

theorem decay_scores_inv (ops : RealOps) (now : ℚ) (s : ReputationSystem)
    (hmm : s.config.min_score ≤ s.config.max_score) (h : RepInv s) :
    RepInv (s.decay_scores ops now) := by
  intro p hp
  simp only [ReputationSystem.decay_scores, List.mem_map] at hp
  obtain ⟨q, hq, hpq⟩ := hp
  by_cases hd : 0 < (now - q.2.last_updated) / (24 * 3600)
  · simp only [hd, if_true] at hpq
    subst hpq
    exact clamp_bounds _ _ hmm
  · simp only [hd, if_false] at hpq
    subst hpq
    exact h q hq

theorem extract_nums_of_forall (l : List OData)
    (h : ∀ x ∈ l, ∃ q, x = OData.num q) :
    ∃ values, extract_nums l = some values := by
  induction l with
  | nil => exact ⟨[], rfl⟩
  | cons x rest ih =>
    obtain ⟨q, hq⟩ := h x (List.mem_cons_self x rest)
    obtain ⟨vs, hvs⟩ := ih (fun y hy => h y (List.mem_cons_of_mem _ hy))
    subst hq
    exact ⟨q :: vs, by simp [extract_nums, hvs]⟩

theorem aggregateValues_isSome (cfg : NetConfig) (values weights : List ℚ)
    (h : agg_names.contains cfg.default_aggregation = true) :
    ∃ ρ, aggregateValues cfg values weights = some ρ := by
  simp only [aggregateValues]
  by_cases h1 : agg_names.contains
      (cfg.aggregation_method.getD cfg.default_aggregation) = true
  · simp only [h1, if_true]
    exact ⟨_, rfl⟩
  · have h1' : agg_names.contains
        (cfg.aggregation_method.getD cfg.default_aggregation) = false := by
      simpa using h1
    simp only [h1', Bool.false_eq_true, if_false, h, if_true]
    exact ⟨_, rfl⟩

theorem submit_response_dup_reject (ops : RealOps) (now : ℚ)
    (s : OracleNetwork) (rid pid : String) (data : OData) (sig : Option String)
    (hdup : ∃ r ∈ (s.responses.lookup rid).getD [], r.provider_id = pid) :
    (s.submit_response ops now rid pid data sig).1 = false ∧
    (s.submit_response ops now rid pid data sig).2.responses = s.responses := by
  have hany : (((s.responses.lookup rid).getD []).any
      fun r => r.provider_id == pid) = true := by
    obtain ⟨r, hr, hrp⟩ := hdup
    exact List.any_eq_true.2 ⟨r, hr, by simp [hrp]⟩
  cases hr : s.requests.lookup rid with
  | none => rw [submit_response_no_request ops now s rid pid data sig hr]; exact ⟨rfl, rfl⟩
  | some req =>
    cases hpv : s.data_providers.lookup pid with
    | none =>
      rw [submit_response_unregistered ops now s rid pid data sig hpv]
      exact ⟨rfl, rfl⟩
    | some p =>
      by_cases hst : req.status = "PENDING"
      · cases hdl : (match req.deadline with
                     | some d => !(d == 0) && decide (d < now)
                     | none => false) with
        | true =>
          obtain ⟨d, hd, h0, hn⟩ : ∃ d, req.deadline = some d ∧ d ≠ 0 ∧ d < now := by
            cases hdc : req.deadline with
            | none => rw [hdc] at hdl; simp at hdl
            | some d =>
              rw [hdc] at hdl
              simp only [Bool.and_eq_true, bne_iff_ne, ne_eq, decide_eq_true_eq] at hdl
              exact ⟨d, rfl, by simpa using hdl.1, hdl.2⟩
          rw [submit_response_expired_eq ops now s rid pid data sig req d hr
            (by simp [hpv]) hst hd h0 hn]
          exact ⟨rfl, rfl⟩
        | false =>
          rw [submit_response_duplicate ops now s rid pid data sig req hr
            (by simp [hpv]) hst hdl hany]
          exact ⟨rfl, rfl⟩
      · rw [submit_response_not_pending ops now s rid pid data sig req hr hst]
        exact ⟨rfl, rfl⟩

/-- C1 (amended): `finalize_request` performs no status check, so a second
call on an already finalized request re-runs aggregation with the current
reputation scores as weights and re-applies the threshold reputation
deltas.  The second call returns the same result and leaves every score
unchanged exactly in the benign case in which the first call applied no
delta — e.g. when every response's accuracy lies in the neutral band
`[0.6, 0.8]` (and no time passes, so no decay); in general result and
scores may both change (see the counterexample). -/
theorem C1_second_finalize_neutral_idempotent (ops : RealOps) (now : ℚ) (s : OracleNetwork)
    (rid : String) (req : DataRequest) (resps : List DataResponse)
    (values : List ℚ) (ρ : ℚ)
    (h1 : s.requests.lookup rid = some req)
    (hresp : (s.responses.lookup rid).getD [] = resps)
    (hval : resps.filter is_valid_response = resps)
    (hlen : req.min_providers ≤ resps.length)
    (hne : resps ≠ [])
    (hnums : extract_nums (resps.map (·.data)) = some values)
    (hagg : aggregateValues s.config values
        (resps.map (fun r => s.reputation_system.get_score r.provider_id)) =
          some ρ)
    (hneu : ∀ r ∈ resps, ∀ d, r.data = OData.num d → ρ ≠ 0 →
        6/10 ≤ accuracy_of d ρ ∧ accuracy_of d ρ ≤ 8/10) :
    (s.finalize_request ops now rid).1.success = true ∧
    ((s.finalize_request ops now rid).2.finalize_request ops now rid).1 =
      (s.finalize_request ops now rid).1 ∧
    (s.finalize_request ops now rid).2.reputation_system =
      s.reputation_system ∧
    ((s.finalize_request ops now rid).2.finalize_request ops now rid).2.reputation_system =
      s.reputation_system := by
  have hrep : update_reputations ops now s.reputation_system resps ρ =
      s.reputation_system :=
    update_reputations_neutral ops now s.reputation_system resps ρ hneu
  have e1 := finalize_numeric_eq ops now s rid req resps values ρ
    h1 hresp hval hlen hne hnums hagg
  rw [e1, hrep]
  set req2 : DataRequest :=
    { req with result := some (OData.num ρ), status := "FINALIZED" } with hreq2
  set s1 : OracleNetwork :=
    { s with requests := updateAssoc s.requests rid req2,
             reputation_system := s.reputation_system } with hs1
  have h1' : s1.requests.lookup rid = some req2 := lookup_updateAssoc_self _ _ _
  have e2 := finalize_numeric_eq ops now s1 rid req2 resps values ρ
    h1' hresp hval hlen hne hnums hagg
  rw [e2, hrep]
  exact ⟨rfl, rfl, rfl, rfl⟩

/-! ### Association-list evaluation helpers and structured-merge lemmas -/

theorem lookup_cons_eq {α : Type} (k a : String) (v : α) (l : List (String × α)) :
    List.lookup k ((a, v) :: l) = if k == a then some v else List.lookup k l := by
  cases h : k == a <;> simp [List.lookup, h]

theorem lookup_isSome_of_mem_keys {α : Type} (l : List (String × α))
    (key : String) (h : key ∈ l.map Prod.fst) : ∃ v, l.lookup key = some v := by
  induction l with
  | nil => simp at h
  | cons p t ih =>
    simp only [List.map_cons, List.mem_cons] at h
    rw [List.lookup]
    by_cases hk : key = p.1
    · have : (key == p.1) = true := by simp [beq_iff_eq, hk]
      rw [this]
      exact ⟨p.2, rfl⟩
    · have hb : (key == p.1) = false := by simp [beq_iff_eq, hk]
      rw [hb]
      exact ih (h.resolve_left hk)

theorem lookup_map_graph {α : Type} (keys : List String) (g : String → α)
    (key : String) (h : key ∈ keys) :
    (keys.map (fun k => (k, g k))).lookup key = some (g key) := by
  induction keys with
  | nil => simp at h
  | cons a t ih =>
    simp only [List.mem_cons] at h
    rw [List.map_cons, List.lookup]
    by_cases hk : key = a
    · have : (key == a) = true := by simp [beq_iff_eq, hk]
      rw [this, hk]
    · have hb : (key == a) = false := by simp [beq_iff_eq, hk]
      rw [hb]
      exact ih (h.resolve_left hk)

theorem filterMap_eq_map_of_forall {α β : Type} (l : List α) (f : α → Option β)
    (g : α → β) (h : ∀ a ∈ l, f a = some (g a)) : l.filterMap f = l.map g := by
  induction l with
  | nil => rfl
  | cons a t ih =>
    rw [List.filterMap_cons, h a (List.mem_cons_self a t), List.map_cons,
      ih (fun b hb => h b (List.mem_cons_of_mem _ hb))]

/-- The dict merge visits exactly the first response's keys and fills each
with the spec-side per-key value. -/
theorem merge_dicts_eq_map (first : List (String × OVal))
    (rest : List (List (String × OVal))) :
    merge_dicts (first :: rest) =
      (first.map Prod.fst).map
        (fun key => (key, merge_key_value (first :: rest) key)) := by
  rw [merge_dicts]
  apply filterMap_eq_map_of_forall
  intro key hkey
  obtain ⟨v, hv⟩ := lookup_isSome_of_mem_keys first key hkey
  have hvals : (first :: rest).filterMap (fun m => m.lookup key) ≠ [] := by
    rw [List.filterMap_cons, hv]
    simp
  simp only [merge_key_value, if_neg hvals]
  split
  · rfl
  · rfl

/-! ### Evaluation of the concrete traces -/

theorem cexS_weights :
    respsA.map (fun r => cexS.reputation_system.get_score r.provider_id) =
      [50, 50, 50] := by rfl

theorem cexS_agg : aggregateValues cexS.config [100, 90, 50] [50, 50, 50] =
    some 80 := by
  norm_num +decide [aggregateValues, agg_names, weighted_mean, list_mean, cexS,
    String.reduceEq, List.contains]

theorem acc_100_80 : accuracy_of 100 80 = 3/4 := by
  norm_num [accuracy_of, abs_of_pos, abs_of_nonneg, min_def]
theorem acc_90_80 : accuracy_of 90 80 = 7/8 := by
  norm_num [accuracy_of, abs_of_pos, abs_of_nonneg, min_def]
theorem acc_50_80 : accuracy_of 50 80 = 5/8 := by
  norm_num [accuracy_of, abs_of_nonneg, abs_of_nonpos, min_def]
theorem thr_075 : threshold_delta (3/4) = 0 := by norm_num [threshold_delta]
theorem thr_0875 : threshold_delta (7/8) = 1/2 := by norm_num [threshold_delta]
theorem thr_0625 : threshold_delta (5/8) = 0 := by norm_num [threshold_delta]

theorem cexS_p2_update :
    (cexS.reputation_system.update_score ops1 0 "p2" (1/2) none).2 = repB := by
  norm_num +decide [ReputationSystem.update_score, ReputationSystem.add_entity,
    RepConfig.clamp, updateAssoc, lookup_cons_eq, List.lookup_nil, entA, entB2,
    repB, cexS, ops1, min_def, max_def, String.reduceEq, String.reduceBEq]

theorem cexS_step1 :
    update_rep_one ops1 0 cexS.reputation_system (respA "p1" 100) 80 =
      cexS.reputation_system := by
  rw [update_rep_one_eq_threshold ops1 0 _ _ 80 100 rfl, acc_100_80, thr_075]
  norm_num

theorem cexS_step2 :
    update_rep_one ops1 0 cexS.reputation_system (respA "p2" 90) 80 = repB := by
  rw [update_rep_one_eq_threshold ops1 0 _ _ 80 90 rfl, acc_90_80, thr_0875]
  norm_num
  exact cexS_p2_update

theorem cexS_step3 : update_rep_one ops1 0 repB (respA "p3" 50) 80 = repB := by
  rw [update_rep_one_eq_threshold ops1 0 _ _ 80 50 rfl, acc_50_80, thr_0625]
  norm_num

theorem cexS_rep_update :
    update_reputations ops1 0 cexS.reputation_system respsA 80 = repB := by
  simp only [respsA]
  rw [update_reputations_cons, cexS_step1, update_reputations_cons, cexS_step2,
    update_reputations_cons, cexS_step3]
  rfl

/-- The first finalize of `cexS`: weighted mean 80, `"p2"` gains 0.5. -/
theorem cexS_finalize_eq : cexS.finalize_request ops1 0 "r" =
    ({ success := true, error := none, result := some (OData.num 80),
       providers := some 3 }, state1) := by
  have h := finalize_numeric_eq ops1 0 cexS "r" reqA respsA [100, 90, 50] 80
    rfl rfl rfl (by decide) (by simp [respsA]) rfl
    (by rw [cexS_weights]; exact cexS_agg)
  rw [h, cexS_rep_update]
  rfl

theorem state1_weights :
    respsA.map (fun r => state1.reputation_system.get_score r.provider_id) =
      [50, 101/2, 50] := by rfl

theorem state1_agg :
    aggregateValues state1.config [100, 90, 50] [50, 101/2, 50] =
      some (24090/301) := by
  norm_num +decide [aggregateValues, agg_names, weighted_mean, list_mean, state1,
    cexS, String.reduceEq, List.contains]

theorem acc_100_q : accuracy_of 100 (24090/301) = 1808/2409 := by
  norm_num [accuracy_of, abs_of_pos, abs_of_nonneg, min_def]
theorem acc_90_q : accuracy_of 90 (24090/301) = 703/803 := by
  norm_num [accuracy_of, abs_of_pos, abs_of_nonneg, min_def]
theorem acc_50_q : accuracy_of 50 (24090/301) = 1505/2409 := by
  norm_num [accuracy_of, abs_of_nonneg, abs_of_nonpos, min_def]
theorem thr_q1 : threshold_delta (1808/2409) = 0 := by norm_num [threshold_delta]
theorem thr_q2 : threshold_delta (703/803) = 1/2 := by norm_num [threshold_delta]
theorem thr_q3 : threshold_delta (1505/2409) = 0 := by norm_num [threshold_delta]

theorem state1_p2_update :
    (repB.update_score ops1 0 "p2" (1/2) none).2 = repC := by
  norm_num +decide [ReputationSystem.update_score, ReputationSystem.add_entity,
    RepConfig.clamp, updateAssoc, lookup_cons_eq, List.lookup_nil, entA, entB2,
    entC2, repB, repC, ops1, min_def, max_def, String.reduceEq, String.reduceBEq]

theorem state1_step1 :
    update_rep_one ops1 0 repB (respA "p1" 100) (24090/301) = repB := by
  rw [update_rep_one_eq_threshold ops1 0 _ _ _ 100 rfl, acc_100_q, thr_q1]
  norm_num

theorem state1_step2 :
    update_rep_one ops1 0 repB (respA "p2" 90) (24090/301) = repC := by
  rw [update_rep_one_eq_threshold ops1 0 _ _ _ 90 rfl, acc_90_q, thr_q2]
  norm_num
  exact state1_p2_update

theorem state1_step3 :
    update_rep_one ops1 0 repC (respA "p3" 50) (24090/301) = repC := by
  rw [update_rep_one_eq_threshold ops1 0 _ _ _ 50 rfl, acc_50_q, thr_q3]
  norm_num

theorem state1_rep_update :
    update_reputations ops1 0 repB respsA (24090/301) = repC := by
  simp only [respsA]
  rw [update_reputations_cons, state1_step1, update_reputations_cons,
    state1_step2, update_reputations_cons, state1_step3]
  rfl

/-- The second finalize: the weights now reflect the updated reputations,
the result drifts to `24090/301` and `"p2"` gains another 0.5. -/
theorem state1_finalize_eq : state1.finalize_request ops1 0 "r" =
    ({ success := true, error := none, result := some (OData.num (24090/301)),
       providers := some 3 }, state2) := by
  have h := finalize_numeric_eq ops1 0 state1 "r" req2A respsA [100, 90, 50]
    (24090/301) rfl rfl rfl (by decide) (by simp [respsA]) rfl
    (by rw [state1_weights]; exact state1_agg)
  have hrep : update_reputations ops1 0 state1.reputation_system respsA
      (24090/301) = repC := state1_rep_update
  rw [h, hrep]
  rfl

theorem cexN_weights :
    respsN.map (fun r => cexN.reputation_system.get_score r.provider_id) =
      [50, 50, 50] := by rfl

theorem cexN_agg : aggregateValues cexN.config [60, 60, 105] [50, 50, 50] =
    some 75 := by
  norm_num +decide [aggregateValues, agg_names, weighted_mean, list_mean, cexN,
    cexS, String.reduceEq, List.contains]

theorem cexN_neutral : ∀ r ∈ respsN, ∀ d, r.data = OData.num d → (75 : ℚ) ≠ 0 →
    6/10 ≤ accuracy_of d 75 ∧ accuracy_of d 75 ≤ 8/10 := by
  intro r hr d hd _
  simp only [respsN, List.mem_cons, List.not_mem_nil, or_false] at hr
  rcases hr with rfl | rfl | rfl
  all_goals
    simp only [respA] at hd
    injection hd with hd2
    subst hd2
  · constructor <;> norm_num [accuracy_of, abs_of_nonpos, abs_of_nonneg, min_def]
  · constructor <;> norm_num [accuracy_of, abs_of_nonpos, abs_of_nonneg, min_def]
  · constructor <;> norm_num [accuracy_of, abs_of_nonneg, min_def]

theorem cex4_expire_eq :
    cex4.submit_response ops1 10 "ru" "p4" (OData.num 80) none =
      (false, cex4x) := by
  rw [submit_response_expired_eq ops1 10 cex4 "ru" "p4" (OData.num 80) none
    req4 5 rfl rfl rfl rfl (by norm_num) (by norm_num)]
  rfl

theorem cex4x_weights :
    resps4.map (fun r => cex4x.reputation_system.get_score r.provider_id) =
      [50, 50, 50] := by rfl

theorem cex4x_agg : aggregateValues cex4x.config [60, 60, 105] [50, 50, 50] =
    some 75 := by
  norm_num +decide [aggregateValues, agg_names, weighted_mean, list_mean, cex4x,
    cex4, String.reduceEq, List.contains]

theorem merge_dctABC : merge_dicts [dctA, dctB, dctC] = [("a", OVal.num 2)] := by
  norm_num +decide [merge_dicts, dctA, dctB, dctC, list_mean, lookup_cons_eq,
    List.lookup_nil, String.reduceEq, String.reduceBEq, most_common,
    List.filterMap_cons, List.filterMap_nil, List.map_cons, List.map_nil,
    List.all_cons, List.all_nil]

set_option maxHeartbeats 2000000 in
/-- `cexS` is the state the coordinator reaches by registering the three
providers, submitting the request and accepting the three responses. -/
theorem cexS_reachable :
    cexOps.foldl (fun s op => NetOp.apply ops1 op s)
      { config := { auto_finalize := false } } = cexS := by
  norm_num +decide [cexOps, NetOp.apply, OracleNetwork.register_provider,
    OracleNetwork.submit_request, OracleNetwork.submit_response,
    ReputationSystem.has_entity, ReputationSystem.add_entity, RepConfig.clamp,
    updateAssoc, lookup_cons_eq, List.lookup_nil, verify_response, provA0,
    provA, entA, reqA, respA, respsA, cexS, ops1, min_def, max_def,
    String.reduceEq, String.reduceBEq]

/-! ### Claims -/

/-- C1 (counterexample): finalizing `cexS` twice with the response
collection unchanged yields a different `result` (80 vs 24090/301) and
applies the `+0.5` reputation delta to `"p2"` a second time (50.5 vs 51),
so a second `finalize_request` is not idempotent as the claim states. -/
theorem C1_counterexample :
    ((cexS.finalize_request ops1 0 "r").2.finalize_request ops1 0 "r").1.result ≠
      (cexS.finalize_request ops1 0 "r").1.result ∧
    ((cexS.finalize_request ops1 0 "r").2.finalize_request ops1 0
        "r").2.reputation_system.get_score "p2" ≠
      (cexS.finalize_request ops1 0 "r").2.reputation_system.get_score "p2" := by
  rw [cexS_finalize_eq, state1_finalize_eq]
  constructor
  · simp only [ne_eq, Option.some.injEq, OData.num.injEq]
    norm_num
  · have h2 : state2.reputation_system.get_score "p2" = 51 := rfl
    have h1 : state1.reputation_system.get_score "p2" = 101/2 := rfl
    rw [h2, h1]
    norm_num

/-- C1 (witness): on `cexN` (responses 60, 60, 105, all accuracies in the
neutral band) the hypotheses of the amended claim hold and finalizing
twice gives the same output and untouched reputations. -/
theorem C1_witness :
    cexN.requests.lookup "r" = some reqA ∧
    ((cexN.finalize_request ops1 0 "r").1.success = true ∧
     ((cexN.finalize_request ops1 0 "r").2.finalize_request ops1 0 "r").1 =
       (cexN.finalize_request ops1 0 "r").1 ∧
     (cexN.finalize_request ops1 0 "r").2.reputation_system =
       cexN.reputation_system ∧
     ((cexN.finalize_request ops1 0 "r").2.finalize_request ops1 0
         "r").2.reputation_system = cexN.reputation_system) :=
  ⟨rfl, C1_second_finalize_neutral_idempotent ops1 0 cexN "r" reqA respsN
    [60, 60, 105] 75 rfl rfl rfl (by decide) (by simp [respsN]) rfl
    (by rw [cexN_weights]; exact cexN_agg) cexN_neutral⟩

/-- C2 (counterexample): a successful finalization of `cexS` changes
`"p2"`'s score (50 → 50.5) while its accuracy history stays empty —
whereas `record_accuracy` always appends the sample first (last conjunct)
— so aggregation does not feed accuracies through
`ReputationStore.recordAccuracy` as the claim states. -/
theorem C2_counterexample :
    (cexS.finalize_request ops1 0 "r").1.success = true ∧
    (cexS.finalize_request ops1 0 "r").2.reputation_system.get_score "p2" ≠
      cexS.reputation_system.get_score "p2" ∧
    acc_history_of (cexS.finalize_request ops1 0 "r").2.reputation_system
      "p2" = [] ∧
    acc_history_of (cexS.reputation_system.record_accuracy ops1 0 "p2"
      (7/8) 1).2 "p2" = [7/8] := by
  rw [cexS_finalize_eq]
  refine ⟨rfl, ?_, rfl, ?_⟩
  · have h1 : state1.reputation_system.get_score "p2" = 101/2 := rfl
    have h0 : cexS.reputation_system.get_score "p2" = 50 := rfl
    rw [h1, h0]
    norm_num
  · rfl

/-- C2 (amended): for every successful numeric finalization the engine
computes `accuracy = 1 - min(1, |data - result| / |result|)` (skipping the
response when `result = 0`) and converts it into a fixed threshold delta
(`+2` above 0.95, `+1` above 0.9, `+0.5` above 0.8, `-1` below 0.6; the
source's `-2` arm is unreachable) applied through
`ReputationStore.updateScore`; `recordAccuracy` is never invoked (accuracy
histories are untouched), and providers outside the valid response set
keep their scores — so the threshold ladder is the only path from
aggregation outcomes into trust scores. -/
theorem C2_threshold_feedback :
    (∀ (ops : RealOps) (now : ℚ) (rs : ReputationSystem) (r : DataResponse)
       (ρ d : ℚ), r.data = OData.num d →
      update_rep_one ops now rs r ρ =
        if ρ = 0 ∨ threshold_delta (accuracy_of d ρ) = 0 then rs
        else (rs.update_score ops now r.provider_id
                (threshold_delta (accuracy_of d ρ)) none).2) ∧
    (∀ (ops : RealOps) (now : ℚ) (rs : ReputationSystem)
       (resps : List DataResponse) (ρ : ℚ) (k : String),
      acc_history_of (update_reputations ops now rs resps ρ) k =
        acc_history_of rs k) ∧
    (∀ (ops : RealOps) (now : ℚ) (rs : ReputationSystem)
       (resps : List DataResponse) (ρ : ℚ) (k : String),
      k ∉ resps.map (·.provider_id) →
      (update_reputations ops now rs resps ρ).get_score k = rs.get_score k) :=
  ⟨fun ops now rs r ρ d hd => update_rep_one_eq_threshold ops now rs r ρ d hd,
   fun ops now rs resps ρ k => update_reputations_acc_history ops now rs resps ρ k,
   fun ops now rs resps ρ k hk =>
     update_reputations_get_score_other ops now rs resps ρ k hk⟩

/-- C2 (witness): the amended claim instantiated on the `90`-response of
`cexS` at result 80 and on the outsider id `"p9"`. -/
theorem C2_witness :
    (respA "p2" 90).data = OData.num 90 ∧
    update_rep_one ops1 0 cexS.reputation_system (respA "p2" 90) 80 =
      (if (80 : ℚ) = 0 ∨ threshold_delta (accuracy_of 90 80) = 0 then
        cexS.reputation_system
       else (cexS.reputation_system.update_score ops1 0
              (respA "p2" 90).provider_id
              (threshold_delta (accuracy_of 90 80)) none).2) ∧
    acc_history_of (update_reputations ops1 0 cexS.reputation_system respsA 80)
      "p9" = acc_history_of cexS.reputation_system "p9" ∧
    "p9" ∉ respsA.map (·.provider_id) ∧
    (update_reputations ops1 0 cexS.reputation_system respsA 80).get_score "p9" =
      cexS.reputation_system.get_score "p9" := by
  have hnot : "p9" ∉ respsA.map (·.provider_id) := by decide
  exact ⟨rfl, C2_threshold_feedback.1 ops1 0 cexS.reputation_system
      (respA "p2" 90) 80 90 rfl,
    C2_threshold_feedback.2.1 ops1 0 cexS.reputation_system respsA 80 "p9",
    hnot,
    C2_threshold_feedback.2.2 ops1 0 cexS.reputation_system respsA 80 "p9" hnot⟩

/-- C3 (counterexample): the request of `cex3` was created at time 0 with
deadline 5; at time 10 the deadline lies in the past, yet
`get_request_status` still reports PENDING (it performs no deadline
check), contradicting the claim that a never-touched expired request is
reported EXPIRED. -/
theorem C3_counterexample :
    (5 : ℚ) < 10 ∧
    (cex3.get_request_status "rq").map (·.status) = some "PENDING" ∧
    (cex3.get_request_status "rq").map (·.response_count) = some 0 := by
  refine ⟨by norm_num, rfl, rfl⟩

/-- C3 (amended): once a request's (nonzero, positive) deadline lies in
the past, every subsequent `submit_response` returns `False`; the first
such attempt on a still-PENDING request by a registered provider marks
the request EXPIRED, and only after such an attempt does
`get_request_status` report EXPIRED — the status read itself performs no
deadline check. -/
theorem C3_deadline_lazy_expiry (ops : RealOps) (now : ℚ) (s : OracleNetwork)
    (rid : String) (req : DataRequest) (d : ℚ)
    (hr : s.requests.lookup rid = some req) (hd : req.deadline = some d)
    (h0 : d ≠ 0) (hn : d < now) :
    (∀ pid data sig, (s.submit_response ops now rid pid data sig).1 = false) ∧
    (req.status = "PENDING" → ∀ pid data sig p,
      s.data_providers.lookup pid = some p →
      ((s.submit_response ops now rid pid data sig).2.get_request_status
        rid).map (·.status) = some "EXPIRED") := by
  constructor
  · intro pid data sig
    exact submit_response_false_of_deadline ops now s rid pid data sig req d
      hr hd h0 hn
  · intro hst pid data sig p hp
    rw [submit_response_expired_eq ops now s rid pid data sig req d hr
      (by simp [hp]) hst hd h0 hn]
    simp only [OracleNetwork.get_request_status, lookup_updateAssoc_self]
    rfl

/-- C3 (witness): on `cex3b` at time 10 (deadline 5) the deadline has
passed; the claim's conclusions hold for provider `"p1"`. -/
theorem C3_witness :
    (cex3b.requests.lookup "rq" = some reqD ∧ reqD.deadline = some 5 ∧
      (5 : ℚ) ≠ 0 ∧ (5 : ℚ) < 10) ∧
    (cex3b.submit_response ops1 10 "rq" "p1" (OData.num 1) none).1 = false ∧
    ((cex3b.submit_response ops1 10 "rq" "p1" (OData.num 1)
      none).2.get_request_status "rq").map (·.status) = some "EXPIRED" := by
  refine ⟨⟨rfl, rfl, by norm_num, by norm_num⟩, ?_, ?_⟩
  · exact (C3_deadline_lazy_expiry ops1 10 cex3b "rq" reqD 5 rfl rfl
      (by norm_num) (by norm_num)).1 "p1" (OData.num 1) none
  · exact (C3_deadline_lazy_expiry ops1 10 cex3b "rq" reqD 5 rfl rfl
      (by norm_num) (by norm_num)).2 rfl "p1" (OData.num 1) none
      (provA "p1") rfl

/-- C4 (counterexample): `cex4` holds three verified responses submitted
before the deadline; the late fourth submission flips the request to
EXPIRED, after which an explicit `finalize_request` still succeeds and
moves it to FINALIZED — so EXPIRED is not terminal as claimed. -/
theorem C4_counterexample :
    (cex4.submit_response ops1 10 "ru" "p4" (OData.num 80) none).1 = false ∧
    ((cex4.submit_response ops1 10 "ru" "p4" (OData.num 80)
      none).2.requests.lookup "ru").map (·.status) = some "EXPIRED" ∧
    ((cex4.submit_response ops1 10 "ru" "p4" (OData.num 80)
      none).2.finalize_request ops1 10 "ru").1.success = true ∧
    (((cex4.submit_response ops1 10 "ru" "p4" (OData.num 80)
      none).2.finalize_request ops1 10 "ru").2.requests.lookup "ru").map
      (·.status) = some "FINALIZED" := by
  rw [cex4_expire_eq]
  have e := finalize_numeric_eq ops1 10 cex4x "ru" req4x resps4 [60, 60, 105]
    75 rfl rfl rfl (by decide) (by simp [resps4]) rfl
    (by rw [cex4x_weights]; exact cex4x_agg)
  refine ⟨rfl, rfl, ?_, ?_⟩
  · rw [e]
  · rw [e]
    simp only [lookup_updateAssoc_self, Option.map]

/-- C4 (amended): FINALIZED is terminal — no coordinator operation (with
uuid-fresh request ids) ever changes the status of a FINALIZED request —
and no request ever returns to PENDING; EXPIRED, however, is not
terminal: `finalize_request` can still finalize an expired request that
holds enough verified responses (see the counterexample). -/
theorem C4_finalized_terminal (ops : RealOps) (op : NetOp) (s : OracleNetwork)
    (rid : String) (req : DataRequest) (hf : op.freshOk s)
    (hk : s.requests.lookup rid = some req) :
    (req.status = "FINALIZED" →
      ∃ req2, (NetOp.apply ops op s).requests.lookup rid = some req2 ∧
        req2.status = "FINALIZED") ∧
    (req.status ≠ "PENDING" →
      ∃ req2, (NetOp.apply ops op s).requests.lookup rid = some req2 ∧
        req2.status ≠ "PENDING") := by
  obtain ⟨req2, h2, hcase⟩ := netop_status_step ops op s hf rid req hk
  constructor
  · intro hfin
    refine ⟨req2, h2, ?_⟩
    rcases hcase with rfl | ⟨hp, _⟩ | hf2
    · exact hfin
    · rw [hfin] at hp; simp at hp
    · exact hf2
  · intro hnp
    refine ⟨req2, h2, ?_⟩
    rcases hcase with rfl | ⟨hp, he⟩ | hf2
    · exact hnp
    · rw [he]; simp
    · rw [hf2]; simp

/-- C4 (witness): `state1` holds the FINALIZED request `"r"`; a further
explicit finalize leaves it FINALIZED. -/
theorem C4_witness :
    (state1.requests.lookup "r" = some req2A ∧ req2A.status = "FINALIZED") ∧
    (∃ req2, (NetOp.apply ops1 (NetOp.finalizeRequest 0 "r")
      state1).requests.lookup "r" = some req2 ∧ req2.status = "FINALIZED") :=
  ⟨⟨rfl, rfl⟩, (C4_finalized_terminal ops1 (NetOp.finalizeRequest 0 "r")
    state1 "r" req2A trivial rfl).1 rfl⟩

/-- C5: for a request with `min_providers = 3`, `finalize_request` fails
(returning `success = false` and leaving the whole state, in particular
the request's result, unchanged) whenever fewer than 3 VERIFIED responses
exist, and succeeds whenever exactly 3 verified scalar-numeric responses
were collected (under a validly configured default aggregation). -/
theorem C5_quorum_gating (ops : RealOps) (now : ℚ) (s : OracleNetwork)
    (rid : String) (req : DataRequest)
    (hr : s.requests.lookup rid = some req) (hmin : req.min_providers = 3) :
    ((((s.responses.lookup rid).getD []).filter is_valid_response).length < 3 →
      (s.finalize_request ops now rid).1.success = false ∧
      (s.finalize_request ops now rid).2 = s) ∧
    (∀ resps, (s.responses.lookup rid).getD [] = resps →
      resps.length = 3 → resps.filter is_valid_response = resps →
      (∀ r ∈ resps, ∃ x, r.data = OData.num x) →
      agg_names.contains s.config.default_aggregation = true →
      (s.finalize_request ops now rid).1.success = true) := by
  constructor
  · intro hlt
    by_cases hlen : ((s.responses.lookup rid).getD []).length < req.min_providers
    · rw [finalize_too_few ops now s rid req hr hlen]
      exact ⟨rfl, rfl⟩
    · rw [finalize_too_few_valid ops now s rid req hr hlen
        (by rw [hmin]; exact hlt)]
      exact ⟨rfl, rfl⟩
  · intro resps hresp hlen3 hval hnum hnames
    have hne : resps ≠ [] := by
      intro h
      subst h
      simp at hlen3
    obtain ⟨values, hnums⟩ := extract_nums_of_forall (resps.map (·.data)) (by
      intro x hx
      obtain ⟨r, hrm, rfl⟩ := List.mem_map.1 hx
      exact hnum r hrm)
    obtain ⟨ρ, hagg⟩ := aggregateValues_isSome s.config values
      (resps.map (fun r => s.reputation_system.get_score r.provider_id)) hnames
    rw [finalize_numeric_eq ops now s rid req resps values ρ hr hresp hval
      (by rw [hmin, hlen3]) hne hnums hagg]

/-- C5 (witness): `cex5` holds only 2 verified responses, so finalize
fails with the state unchanged; `cexS` holds 3 verified numeric responses
and finalize succeeds. -/
theorem C5_witness :
    (cex5.requests.lookup "r" = some reqA ∧ reqA.min_providers = 3) ∧
    ((cex5.finalize_request ops1 0 "r").1.success = false ∧
      (cex5.finalize_request ops1 0 "r").2 = cex5) ∧
    (cexS.finalize_request ops1 0 "r").1.success = true := by
  refine ⟨⟨rfl, rfl⟩, ?_, ?_⟩
  · exact (C5_quorum_gating ops1 0 cex5 "r" reqA rfl rfl).1 (by decide)
  · exact (C5_quorum_gating ops1 0 cexS "r" reqA rfl rfl).2 respsA rfl
      (by decide) rfl (by
        intro r hr
        simp only [respsA, List.mem_cons, List.not_mem_nil, or_false] at hr
        rcases hr with rfl | rfl | rfl
        exacts [⟨100, rfl⟩, ⟨90, rfl⟩, ⟨50, rfl⟩]) rfl

/-- C6: `weighted_mean` returns `Σ(vᵢ·wᵢ)/Σwᵢ` for non-empty values with
matching-length weights of non-zero sum (in particular 22.5 on the
spec's example), and falls back to the plain mean when the weights are
missing (empty), of mismatched length, or sum to zero. -/
theorem C6_weighted_mean_spec :
    (∀ v w : List ℚ, v ≠ [] → w.length = v.length → w.sum ≠ 0 →
      weighted_mean v w = (List.zipWith (· * ·) v w).sum / w.sum) ∧
    weighted_mean [10, 20, 30] [1, 1, 2] = 45/2 ∧
    (∀ v : List ℚ, v ≠ [] → weighted_mean v [] = list_mean v) ∧
    (∀ v w : List ℚ, v ≠ [] → w.length ≠ v.length →
      weighted_mean v w = list_mean v) ∧
    (∀ v w : List ℚ, v ≠ [] → w.length = v.length → w.sum = 0 →
      weighted_mean v w = list_mean v) := by
  refine ⟨?_, ?_, ?_, ?_, ?_⟩
  · intro v w hv hlen hsum
    have hw : w ≠ [] := by
      intro h
      subst h
      exact hv (List.length_eq_zero.mp hlen.symm)
    rw [weighted_mean, if_neg hv, if_neg (by simp [hw, hlen]), if_neg hsum]
  · rw [weighted_mean, if_neg (by simp), if_neg (by simp), if_neg (by norm_num)]
    norm_num [List.zipWith]
  · intro v hv
    rw [weighted_mean, if_neg hv, if_pos (Or.inl rfl)]
  · intro v w hv hlen
    rw [weighted_mean, if_neg hv, if_pos (Or.inr hlen)]
  · intro v w hv hlen hsum
    have hw : w ≠ [] := by
      intro h
      subst h
      exact hv (List.length_eq_zero.mp hlen.symm)
    rw [weighted_mean, if_neg hv, if_neg (by simp [hw, hlen]), if_pos hsum]

/-- C6 (witness): the spec's example `values = [10,20,30]`,
`weights = [1,1,2]` satisfies the hypotheses and yields `90/4 = 22.5`. -/
theorem C6_witness :
    (([10, 20, 30] : List ℚ) ≠ [] ∧
      ([1, 1, 2] : List ℚ).length = ([10, 20, 30] : List ℚ).length ∧
      ([1, 1, 2] : List ℚ).sum ≠ 0) ∧
    weighted_mean [10, 20, 30] [1, 1, 2] =
      (List.zipWith (· * ·) [10, 20, 30] [1, 1, 2]).sum /
        ([1, 1, 2] : List ℚ).sum :=
  ⟨⟨by simp, rfl, by norm_num⟩,
   C6_weighted_mean_spec.1 [10, 20, 30] [1, 1, 2] (by simp) rfl (by norm_num)⟩

/-- C7: every score-changing operation of the reputation store —
`add_entity` with any initial score, `update_score` with any delta,
`record_accuracy`, `decay_scores` — preserves the invariant
`min_score ≤ score ≤ max_score` for every stored entity, for every decay
or stdev oracle, whenever `min_score ≤ max_score` (0 and 100 by
default). -/
theorem C7_score_bounds_invariant (ops : RealOps) (op : RepOp)
    (s : ReputationSystem) (hmm : s.config.min_score ≤ s.config.max_score)
    (h : RepInv s) : RepInv (RepOp.apply ops op s) := by
  cases op with
  | addEntity now id init => exact add_entity_inv s now id init hmm h
  | updateScore now id delta reason =>
    exact update_score_inv ops now s id delta reason hmm h
  | recordAccuracy now id acc w =>
    exact record_accuracy_inv ops now s id acc w hmm h
  | decayScores now => exact decay_scores_inv ops now s hmm h

/-- C7 (witness): the invariant holds on the default-configuration store
`repW` and is preserved by a `+50` delta (which clamps at 100). -/
theorem C7_witness :
    (repW.config.min_score ≤ repW.config.max_score ∧ RepInv repW) ∧
    RepInv (RepOp.apply ops1 (RepOp.updateScore 0 "a" 50 none) repW) := by
  have h1 : RepInv repW := by
    intro p hp
    simp only [repW, List.mem_singleton] at hp
    subst hp
    constructor <;> norm_num [repW, entA]
  exact ⟨⟨by norm_num [repW], h1⟩,
    C7_score_bounds_invariant ops1 (RepOp.updateScore 0 "a" 50 none) repW
      (by norm_num [repW]) h1⟩

/-- C8: a second `submit_response` from a provider that already responded
to the request returns `False` and leaves the stored response collection
unchanged; and every coordinator operation preserves the invariant that
each request holds at most one response per provider. -/
theorem C8_duplicate_rejection (ops : RealOps) (now : ℚ) (s : OracleNetwork)
    (rid pid : String) (data : OData) (sig : Option String)
    (hdup : ∃ r ∈ (s.responses.lookup rid).getD [], r.provider_id = pid) :
    ((s.submit_response ops now rid pid data sig).1 = false ∧
     (s.submit_response ops now rid pid data sig).2.responses = s.responses) ∧
    (∀ op : NetOp, ResponsesInv s → ResponsesInv (NetOp.apply ops op s)) :=
  ⟨submit_response_dup_reject ops now s rid pid data sig hdup,
   fun op h => netop_preserves_responses_inv ops op s h⟩

/-- C8 (witness): `"p1"` already responded in `cex8`; the duplicate
submission is rejected without touching the responses, and a fresh
submission by `"p2"` keeps the uniqueness invariant. -/
theorem C8_witness :
    (respA "p1" 100 ∈ (cex8.responses.lookup "r").getD [] ∧
      (respA "p1" 100).provider_id = "p1") ∧
    ((cex8.submit_response ops1 0 "r" "p1" (OData.num 42) none).1 = false ∧
     (cex8.submit_response ops1 0 "r" "p1" (OData.num 42) none).2.responses =
       cex8.responses) ∧
    ResponsesInv cex8 ∧
    ResponsesInv (NetOp.apply ops1
      (NetOp.submitResponse 0 "r" "p2" (OData.num 7) none) cex8) := by
  have hmem : respA "p1" 100 ∈ (cex8.responses.lookup "r").getD [] := by
    simp [cex8, lookup_cons_eq]
  have hinv : ResponsesInv cex8 := by
    intro p hp
    simp only [cex8, List.mem_singleton] at hp
    subst hp
    simp
  refine ⟨⟨hmem, rfl⟩, (C8_duplicate_rejection ops1 0 cex8 "r" "p1"
    (OData.num 42) none ⟨respA "p1" 100, hmem, rfl⟩).1, hinv,
    (C8_duplicate_rejection ops1 0 cex8 "r" "p1" (OData.num 42) none
      ⟨respA "p1" 100, hmem, rfl⟩).2 _ hinv⟩

/-- C9 (counterexample): finalizing the mapping-valued responses of
`cexD` succeeds with result `{"a": 2}` even though the second response
carries the key `"b"` — keys absent from the first response are dropped,
contradicting the claim that every key of any valid response is merged. -/
theorem C9_counterexample :
    (cexD.finalize_request ops1 0 "r").1.success = true ∧
    "b" ∈ dctB.map Prod.fst ∧
    (cexD.finalize_request ops1 0 "r").1.result =
      some (OData.dict [("a", OVal.num 2)]) ∧
    ([("a", OVal.num 2)] : List (String × OVal)).lookup "b" = none := by
  have e := finalize_dict_eq ops1 0 cexD "r" reqA respsD [dctA, dctB, dctC]
    rfl rfl rfl (by decide) (by simp [respsD]) rfl
  rw [e]
  refine ⟨rfl, by simp [dctB], ?_, by rfl⟩
  rw [merge_dctABC]

/-- C9 (amended): the structured merge covers exactly the keys of the
FIRST valid response; each such key maps to the arithmetic mean of the
values of the responses carrying it when these are all numeric, and to
the most frequent such value otherwise. -/
theorem C9_first_response_key_merge (first : List (String × OVal))
    (rest : List (List (String × OVal))) :
    ((merge_dicts (first :: rest)).map Prod.fst = first.map Prod.fst) ∧
    (∀ key ∈ first.map Prod.fst,
      (merge_dicts (first :: rest)).lookup key =
        some (merge_key_value (first :: rest) key)) := by
  constructor
  · rw [merge_dicts_eq_map, List.map_map]
    simp [Function.comp]
  · intro key hkey
    rw [merge_dicts_eq_map]
    exact lookup_map_graph _ _ key hkey

/-- C9 (witness): the amended claim instantiated on the three concrete
mappings (`"a"` is a key of the first response). -/
theorem C9_witness :
    (merge_dicts [dctA, dctB, dctC]).map Prod.fst = dctA.map Prod.fst ∧
    "a" ∈ dctA.map Prod.fst ∧
    (merge_dicts [dctA, dctB, dctC]).lookup "a" =
      some (merge_key_value [dctA, dctB, dctC] "a") :=
  ⟨(C9_first_response_key_merge dctA [dctB, dctC]).1, by simp [dctA],
   (C9_first_response_key_merge dctA [dctB, dctC]).2 "a" (by simp [dctA])⟩

/-- C10: `submit_response` from an unregistered provider id returns
`False` and leaves the state untouched, even when the request exists, is
PENDING, has no passed deadline and holds no response from that id. -/
theorem C10_unregistered_provider_rejected (ops : RealOps) (now : ℚ)
    (s : OracleNetwork) (rid pid : String) (data : OData) (sig : Option String)
    (req : DataRequest) (hr : s.requests.lookup rid = some req)
    (hst : req.status = "PENDING")
    (hnr : ∀ r ∈ (s.responses.lookup rid).getD [], r.provider_id ≠ pid)
    (hp : s.data_providers.lookup pid = none) :
    s.submit_response ops now rid pid data sig = (false, s) :=
  submit_response_unregistered ops now s rid pid data sig hp

/-- C10 (witness): `cex10` has a pending, deadline-free request with no
responses and no registered providers; the submission by `"px"` is
rejected with the state unchanged. -/
theorem C10_witness :
    (cex10.requests.lookup "r" = some reqA ∧ reqA.status = "PENDING" ∧
      cex10.data_providers.lookup "px" = none) ∧
    cex10.submit_response ops1 0 "r" "px" (OData.num 1) none = (false, cex10) := by
  refine ⟨⟨rfl, rfl, rfl⟩, ?_⟩
  exact C10_unregistered_provider_rejected ops1 0 cex10 "r" "px" (OData.num 1)
    none reqA rfl rfl (by intro r hr; simp [cex10, lookup_cons_eq] at hr) rfl
